/-
Verification development for the AI Comic Creator repository.

Shallow embedding of the core orchestration logic:
  * `generateScenePrompts` (src/services/geminiService.ts): response fence
    stripping, JSON-shape validation, and panel construction.
  * `generateImageForPrompt` (src/services/geminiService.ts): request
    construction, safety-block handling, and the bounded retry loop.
  * `handleComicGeneration` / `handleDownloadPdf` (the App component):
    per-panel image-slot updates and the PDF export.

JavaScript runtime values produced by `JSON.parse` are modeled by the
inductive `Json`; JavaScript strings are modeled by `List Char` where
character-level processing matters and by `String` elsewhere.  Network
responses, `Math.random` jitter and image decoding are modeled as explicit
oracle parameters, since they are environment inputs of the program.
-/
import Mathlib

set_option maxHeartbeats 1000000

/-! ## JavaScript value model -/

/-- Runtime JSON values (`JSON.parse` results and object fields). -/
inductive Json where
  | null : Json
  | bool (b : Bool) : Json
  | num (n : Int) : Json
  | str (s : String) : Json
  | arr (elems : List Json) : Json
  | obj (fields : List (String × Json)) : Json
deriving Repr

/-- JavaScript truthiness of a JSON value (`!!v`). -/
def jsTruthy : Json → Bool
  | .null => false
  | .bool b => b
  | .num n => n != 0
  | .str s => s != ""
  | .arr _ => true
  | .obj _ => true

/-- `typeof v === "object"` for a JSON value (`null` and arrays included). -/
def jsTypeofObject : Json → Bool
  | .null => true
  | .arr _ => true
  | .obj _ => true
  | _ => false

/-- Property access `v.k`: `some` for an object field, otherwise
`undefined` (modeled as `none`). -/
def jsLookup (v : Json) (k : String) : Option Json :=
  match v with
  | .obj fields => fields.lookup k
  | _ => none

/-- Truthiness of a possibly-`undefined` value. -/
def jsTruthyOpt : Option Json → Bool
  | some v => jsTruthy v
  | none => false

/-- `a || d` where `a` may be `undefined`. -/
def jsOr (a : Option Json) (d : Json) : Json :=
  match a with
  | some v => if jsTruthy v then v else d
  | none => d

mutual

/-- `String(v)` conversion as used by the dialogue-normalization fallback. -/
def jsToStr : Json → String
  | .null => "null"
  | .bool b => if b then "true" else "false"
  | .num n => toString n
  | .str s => s
  | .obj _ => "[object Object]"
  | .arr elems => jsArrElems elems

/-- `Array.prototype.join(",")` of element conversions (`null` joins as
the empty string). -/
def jsArrElems : List Json → String
  | [] => ""
  | x :: rest =>
    (match x with
     | .null => ""
     | v => jsToStr v) ++
    (match rest with
     | [] => ""
     | _ => "," ++ jsArrElems rest)
end

/-! ## Configuration model (src/types.ts, src/constants.ts) -/

/-- `AspectRatio` enum from src/types.ts. -/
inductive AspectRatio where
  | SQUARE
  | PORTRAIT
  | LANDSCAPE
deriving DecidableEq, Repr

/-- `CaptionPlacement` enum from src/types.ts. -/
inductive CaptionPlacement where
  | IN_UI
  | IN_IMAGE
deriving DecidableEq, Repr

/-- `ImageGenerationModel.GEMINI_2_FLASH_IMG` from src/types.ts. -/
def GEMINI_2_FLASH_IMG : String := "gemini-2.0-flash-preview-image-generation"

/-- `ImageGenerationModel.IMAGEN_3` from src/types.ts. -/
def IMAGEN_3 : String := "imagen-3.0-generate-002"

/-- `FIXED_IMAGE_SEED` from src/constants.ts. -/
def FIXED_IMAGE_SEED : Nat := 42

/-- `StoryInputOptions` from src/types.ts (model identifiers kept as their
enum string values). -/
structure StoryInputOptions where
  story : String
  style : String
  era : String
  aspectRatio : AspectRatio
  includeCaptions : Bool
  numPages : Nat
  imageModel : String
  textModel : String
  captionPlacement : CaptionPlacement
deriving Repr

/-! ## Code-fence stripping (geminiService.ts lines 179-184)

The source trims the response text and applies the anchored regex
`^```(\w*)?\s*\n?(.*?)\n?\s*```$` (dot-all); when it matches with a
non-empty second group, the group (trimmed again) replaces the text.
Because the regex is anchored at both ends, its behaviour is
deterministic: the leading fence eats a maximal run of word characters
and then a maximal run of whitespace, and the non-greedy group ends
before the maximal whitespace run preceding the final fence. -/

/-- `\w` character class. -/
def isWordChar (c : Char) : Bool := c.isAlphanum || c = '_'

/-- `\s` character class (core whitespace characters). -/
def isSpaceChar (c : Char) : Bool := c.isWhitespace

/-- Leading-whitespace strip. -/
def trimLeft (l : List Char) : List Char := l.dropWhile isSpaceChar

/-- Trailing-whitespace strip. -/
def trimRight (l : List Char) : List Char := (l.reverse.dropWhile isSpaceChar).reverse

/-- `String.prototype.trim()`. -/
def jsTrim (l : List Char) : List Char := trimRight (trimLeft l)

/-- The backtick character. -/
def backtick : Char := Char.ofNat 96

/-- The three-backtick fence delimiter. -/
def tick3 : List Char := [backtick, backtick, backtick]

/-- Second capture group of the fence regex, when the (already trimmed)
text matches `^```(\w*)?\s*\n?(.*?)\n?\s*```$`. -/
def fenceContent (s : List Char) : Option (List Char) :=
  if s.take 3 = tick3 ∧ 6 ≤ s.length ∧ s.drop (s.length - 3) = tick3 then
    let mid := (s.drop 3).take (s.length - 6)
    some (trimRight ((mid.dropWhile isWordChar).dropWhile isSpaceChar))
  else
    none

/-- Lines 180-184: replace the text with the trimmed capture group when
the regex matched and the group is non-empty (`match && match[2]`). -/
def applyFenceStrip (s : List Char) : List Char :=
  match fenceContent s with
  | some content => if content = [] then s else jsTrim content
  | none => s

/-- The exact character sequence handed to `JSON.parse` for a raw
response text: trim, then optional fence strip (lines 179-184). -/
def parseInput (raw : List Char) : List Char := applyFenceStrip (jsTrim raw)

/-- A fenced wrapping `"```" ++ lang ++ "\n" ++ body ++ "\n```"` of a body. -/
def fenceWrap (lang body : List Char) : List Char :=
  tick3 ++ lang ++ ['\n'] ++ body ++ ['\n'] ++ tick3

/-! ## Scene validation and panel construction (geminiService.ts lines 186-236) -/

/-- The run-time shape of one produced panel record (`ComicPanelData`).
The TypeScript type declares `scene_number : number`, but the `map` at
lines 199-236 copies whatever run-time value the response carried when it
is truthy, so the field is modeled as a `Json` value. -/
structure ComicPanelData where
  scene_number : Json
  image_prompt : Json
  caption : Json
  dialogues : List String
  sdfpCharacters : Json
  sdfpScene : Option Json
deriving Repr

/-- Normalization of one dialogue entry (lines 207-211): strings pass
through, `{character, line}` objects become `CharacterName: "line"`,
anything else falls back to `String(d)`. -/
def normDialogue (d : Json) : String :=
  match d with
  | .str s => s
  | _ =>
    if jsTruthy d && jsTruthyOpt (jsLookup d "character") && jsTruthyOpt (jsLookup d "line") then
      jsToStr ((jsLookup d "character").getD .null) ++ ": \"" ++
        jsToStr ((jsLookup d "line").getD .null) ++ "\""
    else
      jsToStr d

/-- Build one panel record from one scene entry (lines 199-235).
`idx` is the 0-based map index.  The source stores
`JSON.stringify({characters, scene, mood: "default"})` in
`scene_description_for_prompt`; the stringified pair is modeled by the
two `sdfp` fields (the `mood` component is the constant `"default"`). -/
def processScene (characterCanon : Json) (includeCaptions : Bool)
    (captionPlacement : CaptionPlacement) (idx : Nat) (panel : Json) : ComicPanelData :=
  let finalCaption : Json :=
    if includeCaptions && (captionPlacement = CaptionPlacement.IN_UI : Bool) then
      jsOr (jsLookup panel "caption") (.str "")
    else
      .null
  let finalDialogues : List String :=
    if includeCaptions && (captionPlacement = CaptionPlacement.IN_UI : Bool) then
      match jsLookup panel "dialogues" with
      | some (.arr ds) => (ds.map normDialogue).filter (fun s => s ≠ "")
      | _ => []
    else
      []
  { scene_number := jsOr (jsLookup panel "scene_number") (.num (idx + 1))
    image_prompt := jsOr (jsLookup panel "image_prompt") (.str "No prompt generated for this scene.")
    caption := finalCaption
    dialogues := finalDialogues
    sdfpCharacters := characterCanon
    sdfpScene := jsLookup panel "scene_description_for_prompt" }

/-- `scenes.map((panel, index) => ...)` with explicit index threading. -/
def sceneMapGo (characterCanon : Json) (includeCaptions : Bool)
    (captionPlacement : CaptionPlacement) (idx : Nat) : List Json → List ComicPanelData
  | [] => []
  | s :: rest =>
    processScene characterCanon includeCaptions captionPlacement idx s ::
      sceneMapGo characterCanon includeCaptions captionPlacement (idx + 1) rest

/-- The panel-building map over the response scene list (lines 199-236). -/
def processScenes (characterCanon : Json) (includeCaptions : Bool)
    (captionPlacement : CaptionPlacement) (scenes : List Json) : List ComicPanelData :=
  sceneMapGo characterCanon includeCaptions captionPlacement 0 scenes

/-- Check at lines 189-191:
`parsedData && typeof parsedData === "object" && Array.isArray(parsedData.scenes)`. -/
def scenesShapeOk (parsedData : Json) : Bool :=
  jsTruthy parsedData && jsTypeofObject parsedData &&
    (match jsLookup parsedData "scenes" with
     | some (.arr _) => true
     | _ => false)

/-- `typeof v === "object"` where `v` may be `undefined`. -/
def jsTypeofObjectOpt : Option Json → Bool
  | some v => jsTypeofObject v
  | none => false

/-- Check at lines 192-194:
`parsedData.characterCanon && typeof parsedData.characterCanon === "object"`. -/
def canonShapeOk (parsedData : Json) : Bool :=
  jsTruthyOpt (jsLookup parsedData "characterCanon") &&
    jsTypeofObjectOpt (jsLookup parsedData "characterCanon")

/-- Error raised inside the `try` block of `generateScenePrompts`;
`JSON.parse` failures are `SyntaxError`s, everything the code throws
itself is a plain `Error`. -/
inductive SceneErr where
  | syntaxErr (msg : String)
  | thrown (msg : String)
deriving Repr

/-- Line 190 message. -/
def missingStructMsg (textModel : String) : String :=
  "API response (model: " ++ textModel ++ ") did not contain the expected JSON structure. Missing \x27scenes\x27 array or \x27characterCanon\x27."

/-- Line 193 message. -/
def missingCanonMsg (textModel : String) : String :=
  "API response (model: " ++ textModel ++ ") did not contain the expected \x27characterCanon\x27 object."

/-- Validation and panel construction applied to the parsed response
value (lines 189-236). -/
def validateAndBuild (includeCaptions : Bool) (captionPlacement : CaptionPlacement)
    (textModel : String) (parsedData : Json) : Except SceneErr (List ComicPanelData) :=
  if scenesShapeOk parsedData = false then
    .error (.thrown (missingStructMsg textModel))
  else if canonShapeOk parsedData = false then
    .error (.thrown (missingCanonMsg textModel))
  else
    match jsLookup parsedData "scenes", jsLookup parsedData "characterCanon" with
    | some (.arr scenes), some characterCanon =>
      .ok (processScenes characterCanon includeCaptions captionPlacement scenes)
    | _, _ => .error (.thrown (missingStructMsg textModel))

/-! ## The `generateScenePrompts` pipeline (geminiService.ts lines 63-252) -/

/-- Externally visible API effects, used to state that nothing is
constructed or called before the key check. -/
inductive ApiEffect where
  | clientConstructed
  | textGenerationCall
  | imageGenerationCall
deriving DecidableEq, Repr

/-- The fields of the text-endpoint response the function reads:
`promptFeedback?.blockReason` and `text`. -/
structure TextApiResult where
  blockReason : Option String
  text : Option (List Char)

/-- Line 170 message. -/
def blockedStoryMsg (textModel blockReason : String) : String :=
  "Your story was blocked by content policies using model " ++ textModel ++
    " (" ++ blockReason ++ "). Please revise your story."

/-- Line 176 message. -/
def noTextMsg (textModel : String) : String :=
  "API response (model: " ++ textModel ++ ") was malformed or did not contain expected text content."

/-- Body of the `try` block (lines 163-236): block-reason check, text
check, fence strip, parse, validation, panel construction.  `parse`
models `JSON.parse`, an environment input (its failure message is the
`SyntaxError` message). -/
def sceneCore (includeCaptions : Bool) (captionPlacement : CaptionPlacement)
    (textModel : String) (result : TextApiResult)
    (parse : List Char → Except String Json) : Except SceneErr (List ComicPanelData) :=
  match result.blockReason with
  | some br => .error (.thrown (blockedStoryMsg textModel br))
  | none =>
    match result.text with
    | none => .error (.thrown (noTextMsg textModel))
    | some t =>
      if t = [] then .error (.thrown (noTextMsg textModel))
      else
        match parse (parseInput t) with
        | .error m => .error (.syntaxErr m)
        | .ok j => validateAndBuild includeCaptions captionPlacement textModel j

/-- Contiguous-substring test (`String.prototype.includes`). -/
def listIsInfix (needle : List Char) : List Char → Bool
  | [] => needle.isEmpty
  | c :: rest => needle.isPrefixOf (c :: rest) || listIsInfix needle rest

/-- `s.includes(pat)`. -/
def containsSub (pat s : String) : Bool := listIsInfix pat.data s.data

/-- ASCII lowering of every character (`toLowerCase`). -/
def lowerChars (s : String) : List Char := s.data.map Char.toLower

/-- ASCII raising of every character (`toUpperCase`). -/
def upperChars (s : String) : List Char := s.data.map Char.toUpper

/-- `s.toLowerCase().includes(pat)` (`pat` given already lowercase). -/
def containsLower (pat s : String) : Bool := listIsInfix pat.data (lowerChars s)

/-- `s.toUpperCase().includes(pat)` (`pat` given already uppercase). -/
def containsUpper (pat s : String) : Bool := listIsInfix pat.data (upperChars s)

/-- Catch-block wrapping for `generateScenePrompts` (lines 238-251). -/
def wrapSceneError (textModel : String) : SceneErr → String
  | e =>
    let message := match e with
      | .syntaxErr m => m
      | .thrown m => m
    let isSyntax : Bool := match e with
      | .syntaxErr _ => true
      | .thrown _ => false
    if containsLower "api key not valid" message || containsLower "permission denied" message then
      "Failed to generate scene prompts (model: " ++ textModel ++
        ") due to an API key issue: " ++ message ++ ". Check your API key and permissions."
    else if isSyntax || containsLower "json" message || containsLower "unexpected token" message ||
        containsLower "malformed" message then
      "Failed to parse scene prompts from API response (model: " ++ textModel ++ "): " ++ message ++
        ". This can happen if the story is too long or requests too many pages, leading to an incomplete/malformed response. Try reducing pages or simplifying story."
    else
      "Failed to generate scene prompts (model: " ++ textModel ++ "). Error: " ++ message ++
        ". Ensure API key is valid and model is accessible."

/-- Line 64 message. -/
def keyRequiredSceneMsg : String := "API Key is required to generate scene prompts."

/-- `generateScenePrompts` (lines 63-252): the key guard at line 64 runs
before the client is constructed (line 65) and before the text call
(line 163); the emitted `ApiEffect` trace records both. -/
def generateScenePromptsRun (apiKey : String) (options : StoryInputOptions)
    (result : TextApiResult) (parse : List Char → Except String Json) :
    Except String (List ComicPanelData) × List ApiEffect :=
  if apiKey = "" then
    (.error keyRequiredSceneMsg, [])
  else
    match sceneCore options.includeCaptions options.captionPlacement options.textModel result parse with
    | .ok panels => (.ok panels, [.clientConstructed, .textGenerationCall])
    | .error e => (.error (wrapSceneError options.textModel e), [.clientConstructed, .textGenerationCall])

/-! ## The image call: safety model (geminiService.ts lines 356-396) -/

/-- `HarmCategory` values the SDK can report in a safety rating. -/
inductive HarmCategory where
  | unspecified
  | hateSpeech
  | sexuallyExplicit
  | harassment
  | dangerousContent
  | civicIntegrity
deriving DecidableEq, Repr

/-- Serialization of a `HarmCategory` into a template literal. -/
def HarmCategory.str : HarmCategory → String
  | .unspecified => "HARM_CATEGORY_UNSPECIFIED"
  | .hateSpeech => "HARM_CATEGORY_HATE_SPEECH"
  | .sexuallyExplicit => "HARM_CATEGORY_SEXUALLY_EXPLICIT"
  | .harassment => "HARM_CATEGORY_HARASSMENT"
  | .dangerousContent => "HARM_CATEGORY_DANGEROUS_CONTENT"
  | .civicIntegrity => "HARM_CATEGORY_CIVIC_INTEGRITY"

/-- `HarmProbability` values the SDK can report. -/
inductive HarmProbability where
  | unspecified
  | negligible
  | low
  | medium
  | high
deriving DecidableEq, Repr

/-- Serialization of a `HarmProbability` into a template literal. -/
def HarmProbability.str : HarmProbability → String
  | .unspecified => "HARM_PROBABILITY_UNSPECIFIED"
  | .negligible => "NEGLIGIBLE"
  | .low => "LOW"
  | .medium => "MEDIUM"
  | .high => "HIGH"

/-- `SafetyRating` interface (lines 36-40). -/
structure SafetyRating where
  category : HarmCategory
  probability : HarmProbability
  blocked : Option Bool
deriving DecidableEq, Repr

/-- `inlineData` of a response part. -/
structure InlineData where
  mimeType : String
  data : String
deriving Repr

/-- One part of a candidate content. -/
structure ResponsePart where
  text : Option String
  inlineData : Option InlineData
deriving Repr

/-- One response candidate (`finishReason`, `safetyRatings`,
`content.parts`). -/
structure Candidate where
  finishReason : Option String
  safetyRatings : Option (List SafetyRating)
  parts : List ResponsePart
deriving Repr

/-- A Gemini-flash image response: a candidate list. -/
structure FlashResponse where
  candidates : List Candidate
deriving Repr

/-- `candidate.safetyRatings?.find(r => r.blocked === true)` (line 374). -/
def findBlockedRating (c : Candidate) : Option SafetyRating :=
  match c.safetyRatings with
  | some rs => rs.find? (fun r => r.blocked == some true)
  | none => none

/-- The safety-block message (lines 372-378), parameterized by the
finish reason and the result of the blocked-rating lookup. -/
def mkSafetyMessage (reason : String) (found : Option SafetyRating) : String :=
  "Image generation was blocked by safety filters (Reason: " ++ reason ++ ")." ++
    (match found with
     | some r => " Details: Category " ++ r.category.str ++ ", Probability " ++ r.probability.str ++ "."
     | none => "") ++
    " Please try a different prompt or adjust story content."

/-- The line 395 message (no image part found). -/
def noImageFlashMsg (imageModelName textFeedback : String) : String :=
  "API did not return an image for " ++ imageModelName ++ ". Feedback: \"" ++ textFeedback ++
    "\". This could be due to restrictive safety filters, an issue with the prompt, or an API problem. Full response logged to console."

/-- Text feedback joined from the candidate parts (lines 390-393). -/
def textFeedbackOf (c : Option Candidate) : String :=
  match c with
  | none => "No explicit text feedback from API."
  | some cand =>
    let parts := cand.parts.filter (fun p => match p.text with
      | some t => t ≠ ""
      | none => false)
    if parts.isEmpty then "No explicit text feedback from API."
    else String.intercalate " " (parts.map (fun p => p.text.getD ""))

/-- The Gemini-flash branch of the `try` body (lines 359-395): safety
finish reasons raise the safety message; an inline-data part with truthy
bytes and MIME type returns a data URL; otherwise the no-image error is
raised. -/
def flashTryBody (imageModelName : String) (resp : FlashResponse) : Except String String :=
  match resp.candidates.head? with
  | some c =>
    if c.finishReason = some "SAFETY" ∨ c.finishReason = some "IMAGE_SAFETY" then
      .error (mkSafetyMessage ((c.finishReason).getD "") (findBlockedRating c))
    else
      match c.parts.find? (fun p => p.inlineData.isSome) with
      | some p =>
        match p.inlineData with
        | some d =>
          if d.data ≠ "" ∧ d.mimeType ≠ "" then
            .ok ("data:" ++ d.mimeType ++ ";base64," ++ d.data)
          else
            .error (noImageFlashMsg imageModelName (textFeedbackOf (some c)))
        | none => .error (noImageFlashMsg imageModelName (textFeedbackOf (some c)))
      | none => .error (noImageFlashMsg imageModelName (textFeedbackOf (some c)))
  | none => .error (noImageFlashMsg imageModelName (textFeedbackOf none))

/-- One generated image of an Imagen response. -/
structure GeneratedImage where
  imageBytes : String
deriving Repr

/-- An Imagen (`generateImages`) response: possible error/code fields and
the generated-image list. -/
structure ImagenResponse where
  errorField : Option String
  codeField : Option String
  generatedImages : List GeneratedImage
deriving Repr

/-- The Imagen branch of the `try` body (lines 400-421). -/
def imagenTryBody (imageModelName : String) (resp : ImagenResponse) : Except String String :=
  if resp.errorField.isSome ∨ resp.codeField.isSome then
    .error ("Image generation failed for " ++ imageModelName ++ ". API Error: " ++
      (resp.errorField.getD (resp.codeField.getD "")))
  else
    match resp.generatedImages.head? with
    | some g =>
      if g.imageBytes ≠ "" then
        .ok ("data:image/jpeg;base64," ++ g.imageBytes)
      else
        .error ("No image data received from " ++ imageModelName ++
          " API. This could be due to safety filters or other issues. Full response logged to console.")
    | none =>
      .error ("No image data received from " ++ imageModelName ++
        " API. This could be due to safety filters or other issues. Full response logged to console.")

/-! ## Failure classification and retry loop (geminiService.ts lines 352-450) -/

/-- Lines 425: API-key / permission failure test. -/
def isAuthErr (m : String) : Bool :=
  containsLower "api key not valid" m || containsLower "permission denied" m

/-- Lines 429-431: rate-limit failure test. -/
def isRateLimitErr (m : String) : Bool :=
  containsLower "429" m || containsUpper "RESOURCE_EXHAUSTED" m ||
    containsUpper "RATE_LIMIT_EXCEEDED" m

/-- Lines 433-435: internal-server failure test. -/
def isInternalServerErr (m : String) : Bool :=
  containsLower "status: 500" m || containsUpper "INTERNAL ERROR" m ||
    containsUpper "INTERNAL" m

/-- Lines 443: safety failure test. -/
def isSafetyErr (m : String) : Bool :=
  containsLower "blocked by safety filters" m || containsLower "safety policy" m

/-- An error the catch block classifies as retryable: it passes the
auth check unclassified and matches the rate-limit or internal-server
predicates. -/
def classifiedTransient (m : String) : Bool :=
  !isAuthErr m && (isRateLimitErr m || isInternalServerErr m)

/-- Line 352. -/
def maxRetries : Nat := 2

/-- Line 354 (milliseconds). -/
def baseDelayMs : ℚ := 2000

/-- Line 426 message. -/
def imageAuthWrapMsg (imageModelName m : String) : String :=
  "Image generation failed for model \x27" ++ imageModelName ++
    "\x27 due to an API key issue: " ++ m ++ ". Please check your API key and its permissions."

/-- Line 446 message. -/
def imageFatalWrapMsg (imageModelName : String) (attemptNumber : Nat) (m : String) : String :=
  "API call failed for model \x27" ++ imageModelName ++ "\x27 (attempt " ++
    toString attemptNumber ++ "/" ++ toString (maxRetries + 1) ++ "). Original error: " ++ m

/-- Line 450 message (only reachable if the loop exits without a return
or throw). -/
def imageAllRetriesMsg (imageModelName : String) : String :=
  "Failed to generate image after all retries for model \x27" ++ imageModelName ++
    "\x27. Check console for details."

/-- Result of the retry loop: the final value or error, the number of
attempts issued, and the sequence of retry delays slept (ms). -/
structure RetryOutcome where
  result : Except String String
  attempts : Nat
  delays : List ℚ
deriving Repr

/-- The `while (retries <= maxRetries)` loop (lines 356-449).
`outcomes r` is the outcome of the single attempt made while the counter
equals `r` (either a returned data URL or the thrown error message);
`jitter k` is the `Math.random() * 1000` summand of the `k`-th retry
delay.  The fuel argument equals `maxRetries + 1 - retries` at every
call, which bounds the loop; the fuel-exhausted branch returns the
post-loop error of line 450. -/
def retryGo (imageModelName : String) (outcomes : Nat → Except String String)
    (jitter : Nat → ℚ) : Nat → Nat → RetryOutcome
  | _, 0 => ⟨.error (imageAllRetriesMsg imageModelName), 0, []⟩
  | r, fuel + 1 =>
    match outcomes r with
    | .ok url => ⟨.ok url, r + 1, []⟩
    | .error msg =>
      if isAuthErr msg then
        ⟨.error (imageAuthWrapMsg imageModelName msg), r + 1, []⟩
      else if (isRateLimitErr msg || isInternalServerErr msg) && decide (r < maxRetries) then
        let retries := r + 1
        let delayTime := baseDelayMs * 2 ^ (retries - 1) + jitter retries
        let rest := retryGo imageModelName outcomes jitter retries fuel
        ⟨rest.result, rest.attempts, delayTime :: rest.delays⟩
      else if isSafetyErr msg then
        ⟨.error msg, r + 1, []⟩
      else
        ⟨.error (imageFatalWrapMsg imageModelName (r + 1) msg), r + 1, []⟩

/-- The whole retry loop starting with `retries = 0`. -/
def imageRetryRun (imageModelName : String) (outcomes : Nat → Except String String)
    (jitter : Nat → ℚ) : RetryOutcome :=
  retryGo imageModelName outcomes jitter 0 (maxRetries + 1)

/-- Line 275 message. -/
def keyRequiredImageMsg : String := "API Key is required for image generation."

/-- `generateImageForPrompt` (lines 267-451) with the per-attempt
outcomes and the jitter stream as oracles: the key guard at line 275
runs before the client is constructed (line 276) and before any attempt;
the effect trace records the construction and one call per attempt. -/
def generateImageForPromptRun (apiKey : String) (imageModelName : String)
    (outcomes : Nat → Except String String) (jitter : Nat → ℚ) :
    Except String String × List ApiEffect :=
  if apiKey = "" then
    (.error keyRequiredImageMsg, [])
  else
    let r := imageRetryRun imageModelName outcomes jitter
    (r.result, .clientConstructed :: List.replicate r.attempts .imageGenerationCall)

/-! ## Image request construction (geminiService.ts lines 278-284 and 356-409) -/

/-- Lines 278-284: the `apiAspectRatioValue` switch. -/
def apiAspectRatioValue : AspectRatio → String
  | .SQUARE => "1:1"
  | .PORTRAIT => "9:16"
  | .LANDSCAPE => "16:9"

/-- The two request shapes issued by `generateImageForPrompt`.  The
`generateContent` shape (lines 360-367) carries the prompt, the TEXT and
IMAGE response modalities and the seed; the `generateImages` shape
(lines 400-409) carries the prompt, `numberOfImages`, the output MIME
type, the aspect ratio and the seed. -/
inductive ImageRequest where
  | flashGenerateContent (model : String) (promptText : String)
      (responseModalities : List String) (seed : Nat)
  | imagenGenerateImages (model : String) (prompt : String)
      (numberOfImages : Nat) (outputMimeType : String) (aspectRatio : String) (seed : Nat)
deriving Repr

/-- The request built for one attempt: the Gemini-flash model selects
the `generateContent` shape, every other model the `generateImages`
shape (lines 359 and 399). -/
def buildImageRequest (imageModelName : String) (augmentedPrompt : String)
    (inputAspectRatio : AspectRatio) : ImageRequest :=
  if imageModelName = GEMINI_2_FLASH_IMG then
    .flashGenerateContent imageModelName augmentedPrompt ["TEXT", "IMAGE"] FIXED_IMAGE_SEED
  else
    .imagenGenerateImages imageModelName augmentedPrompt 1 "image/jpeg"
      (apiAspectRatioValue inputAspectRatio) FIXED_IMAGE_SEED

/-- The seed carried by a request. -/
def requestSeed : ImageRequest → Nat
  | .flashGenerateContent _ _ _ s => s
  | .imagenGenerateImages _ _ _ _ _ s => s

/-- The aspect-ratio parameter carried by a request, if any. -/
def requestAspect : ImageRequest → Option String
  | .flashGenerateContent _ _ _ _ => none
  | .imagenGenerateImages _ _ _ _ ar _ => some ar

/-! ## Panel-store updates during a run (App component, handleComicGeneration) -/

/-- The App-side view of a panel: the fields `handleComicGeneration` and
`handleDownloadPdf` read (`scene_number` is `number` there; the image
slot is `undefined`, a data URL, or the literal marker `"error"`). -/
structure AppPanel where
  scene_number : Int
  caption : Option String
  dialogues : List String
  imageUrl : Option String
deriving DecidableEq, Repr

/-- `prevPanels.map(p => p.scene_number === sn ? {...p, imageUrl: url} : p)`
(lines 70-72 and 75-77 of the App component). -/
def setPanelUrl (panels : List AppPanel) (sn : Int) (url : String) : List AppPanel :=
  panels.map (fun p => if p.scene_number = sn then { p with imageUrl := some url } else p)

/-- One iteration of the image loop for the panel numbered `sn`: a
success stores the data URL, a caught failure stores the `"error"`
marker (lines 61-84). -/
def panelStep (panels : List AppPanel) (sn : Int) : Except String String → List AppPanel
  | .ok url => setPanelUrl panels sn url
  | .error _ => setPanelUrl panels sn "error"

/-- The string an outcome leaves in the image slot. -/
def renderOutcome : Except String String → String
  | .ok url => url
  | .error _ => "error"

/-- States after each iteration of the `for` loop (lines 51-85); the
loop walks the prompt list by index and `outcome i` is the result of
`generateImageForPrompt` for panel `i`. -/
def imageLoopGo (outcome : Nat → Except String String) :
    Nat → List AppPanel → List AppPanel → List (List AppPanel)
  | _, _, [] => []
  | i, cur, p :: rest =>
    let nxt := panelStep cur p.scene_number (outcome i)
    nxt :: imageLoopGo outcome (i + 1) nxt rest

/-- All states of the panel store during a run, starting from the
freshly reset list (`imageUrl: undefined`, line 41). -/
def comicRunStates (prompts : List AppPanel) (outcome : Nat → Except String String) :
    List (List AppPanel) :=
  let init := prompts.map (fun p => { p with imageUrl := none })
  init :: imageLoopGo outcome 0 init prompts

/-- Tail of the loop, final state only. -/
def imageLoopFinalGo (outcome : Nat → Except String String) :
    Nat → List AppPanel → List AppPanel → List AppPanel
  | _, cur, [] => cur
  | i, cur, p :: rest =>
    imageLoopFinalGo outcome (i + 1) (panelStep cur p.scene_number (outcome i)) rest

/-- The final panel store of a run. -/
def comicRunFinal (prompts : List AppPanel) (outcome : Nat → Except String String) :
    List AppPanel :=
  imageLoopFinalGo outcome 0 (prompts.map (fun p => { p with imageUrl := none })) prompts

/-- The image slot of panel position `k` in one state. -/
def slotAt (st : List AppPanel) (k : Nat) : Option String :=
  match st[k]? with
  | some p => p.imageUrl
  | none => none

/-- The sequence of values panel position `k`'s image slot takes during
a run. -/
def slotSeq (prompts : List AppPanel) (outcome : Nat → Except String String) (k : Nat) :
    List (Option String) :=
  (comicRunStates prompts outcome).map (fun st => slotAt st k)

/-- One admissible transition of an image slot: unchanged, or set for
the first time. -/
def slotStepOk (a b : Option String) : Prop := a = b ∨ (a = none ∧ b ≠ none)

/-- A slot history changes at most once, from absent to present, never
back. -/
def slotHistoryOk (l : List (Option String)) : Prop :=
  ∀ pr ∈ l.zip l.tail, slotStepOk pr.1 pr.2

/-! ## PDF export (App component, handleDownloadPdf) -/

/-- One drawn element of a PDF page.  `textItem` records the logical
string handed to `pdf.text` (wrapping by `splitTextToSize` changes only
the line count, which feeds the y-cursor through `wrap`); `imageItem`
records the placement rectangle passed to `pdf.addImage`. -/
inductive PdfItem where
  | textItem (content : String) (x y : ℚ)
  | imageItem (url : String) (x y w h : ℚ)
deriving DecidableEq, Repr

/-- Document under construction: finished pages plus the current page. -/
structure PdfBuild where
  donePages : List (List PdfItem)
  curPage : List PdfItem
deriving Repr

/-- `pdf.addPage()`. -/
def pdfAddPage (b : PdfBuild) : PdfBuild :=
  ⟨b.donePages ++ [b.curPage], []⟩

/-- Draw one item on the current page. -/
def pdfAddItem (b : PdfBuild) (it : PdfItem) : PdfBuild :=
  ⟨b.donePages, b.curPage ++ [it]⟩

/-- All pages of a finished build. -/
def pdfPages (b : PdfBuild) : List (List PdfItem) :=
  b.donePages ++ [b.curPage]

/-- Page width in mm (lines 130). -/
def a4Width (isLandscape : Bool) : ℚ := if isLandscape then 297 else 210

/-- Page height in mm (line 131). -/
def a4Height (isLandscape : Bool) : ℚ := if isLandscape then 210 else 297

/-- Line 132. -/
def marginMM : ℚ := 10

/-- Line 133. -/
def maxImgWidth (isLandscape : Bool) : ℚ := a4Width isLandscape - 2 * marginMM

/-- Line 134. -/
def maxImgHeightArea (isLandscape : Bool) : ℚ := a4Height isLandscape * (65 / 100) - marginMM

/-- Lines 157-167: scale the image to the full content width, then clamp
to the height budget keeping the width/height ratio. -/
def scaleDims (isLandscape : Bool) (w h : ℚ) : ℚ × ℚ :=
  let aspectRatioVal := w / h
  let pdfImgWidth := maxImgWidth isLandscape
  let pdfImgHeight := pdfImgWidth / aspectRatioVal
  if pdfImgHeight > maxImgHeightArea isLandscape then
    (maxImgHeightArea isLandscape * aspectRatioVal, maxImgHeightArea isLandscape)
  else
    (pdfImgWidth, pdfImgHeight)

/-- Line 146 label. -/
def panelLabel (sn : Int) : String := "Panel " ++ toString sn

/-- Line 192 continuation label. -/
def panelContLabel (sn : Int) : String := "Panel " ++ toString sn ++ " (cont.)"

/-- Line 204 text. -/
def errLoadingImageMsg : String := "Error loading image for this panel."

/-- Line 211 texts. -/
def errGenerationFailedMsg : String := "Image generation failed for this panel."

/-- Line 211, `imageUrl` absent. -/
def imgNotAvailableMsg : String := "Image not available for this panel."

/-- Lines 188-198: draw one dialogue line, starting a continuation page
with a repeated label when the cursor passed the bottom budget.  `wrap`
models `pdf.splitTextToSize(text, MAX_IMG_WIDTH).length`. -/
def renderDialogue (isLandscape : Bool) (wrap : String → Nat) (sn : Int)
    (st : PdfBuild × ℚ) (dialogue : String) : PdfBuild × ℚ :=
  let b := st.1
  let y := st.2
  let moved : PdfBuild × ℚ :=
    if y > a4Height isLandscape - marginMM - 10 then
      let b2 := pdfAddItem (pdfAddPage b) (.textItem (panelContLabel sn) marginMM marginMM)
      (b2, marginMM + 10)
    else
      (b, y)
  let b3 := pdfAddItem moved.1 (.textItem dialogue marginMM moved.2)
  (b3, moved.2 + (wrap dialogue : ℚ) * 4 + 2)

/-- Lines 143-213: draw one panel onto the current page.  The caption
and dialogue blocks run only inside the successful-image branch; a panel
with the `"error"` marker or no image gets a textual placeholder; an
image that fails to decode (modeled by `imgLoad u = none`) is caught and
replaced by an inline error notice. -/
def renderPanel (isLandscape : Bool) (wrap : String → Nat)
    (imgLoad : String → Option (ℚ × ℚ)) (b : PdfBuild) (p : AppPanel) : PdfBuild :=
  let b := pdfAddItem b (.textItem (panelLabel p.scene_number) marginMM (marginMM + 5))
  match p.imageUrl with
  | some u =>
    if u = "error" then
      pdfAddItem b (.textItem errGenerationFailedMsg marginMM (marginMM + 20))
    else
      match imgLoad u with
      | some (w, h) =>
        let dims := scaleDims isLandscape w h
        let imgX := (a4Width isLandscape - dims.1) / 2
        let imgY := marginMM + 10
        let b := pdfAddItem b (.imageItem u imgX imgY dims.1 dims.2)
        let y := imgY + dims.2 + 10
        let afterCaption : PdfBuild × ℚ :=
          match p.caption with
          | some c =>
            if c ≠ "" then
              (pdfAddItem b (.textItem ("Caption: " ++ c) marginMM y),
                y + (wrap ("Caption: " ++ c) : ℚ) * 5 + 5)
            else
              (b, y)
          | none => (b, y)
        (p.dialogues.foldl (renderDialogue isLandscape wrap p.scene_number) afterCaption).1
      | none =>
        pdfAddItem b (.textItem errLoadingImageMsg marginMM (marginMM + 20))
  | none =>
    pdfAddItem b (.textItem imgNotAvailableMsg marginMM (marginMM + 20))

/-- Lines 137-141: every panel after the first starts on a new page. -/
def renderPanelsGo (isLandscape : Bool) (wrap : String → Nat)
    (imgLoad : String → Option (ℚ × ℚ)) : PdfBuild → List AppPanel → PdfBuild
  | b, [] => b
  | b, p :: rest =>
    renderPanelsGo isLandscape wrap imgLoad (renderPanel isLandscape wrap imgLoad (pdfAddPage b) p) rest

/-- `handleDownloadPdf` (lines 116-222) as a document builder: the empty
panel list returns no document (line 117); otherwise the first panel is
drawn on the initial page and each further panel on a fresh page. -/
def buildComicPdf (isLandscape : Bool) (wrap : String → Nat)
    (imgLoad : String → Option (ℚ × ℚ)) (comicPanels : List AppPanel) :
    List (List PdfItem) :=
  match comicPanels with
  | [] => []
  | p :: rest =>
    pdfPages (renderPanelsGo isLandscape wrap imgLoad
      (renderPanel isLandscape wrap imgLoad ⟨[], []⟩ p) rest)

/-- Text contents of one page. -/
def pageTextContents (page : List PdfItem) : List String :=
  page.filterMap (fun it => match it with
    | .textItem c _ _ => some c
    | .imageItem _ _ _ _ _ => none)

/-- Placement rectangles of the images of one page. -/
def pageImageDims (page : List PdfItem) : List (ℚ × ℚ) :=
  page.filterMap (fun it => match it with
    | .textItem _ _ _ => none
    | .imageItem _ _ _ w h => some (w, h))

/-- Per-page text contents of a document. -/
def docTextContents (doc : List (List PdfItem)) : List (List String) :=
  doc.map pageTextContents

/-! ## Concrete instances used by counterexamples and witnesses -/

/-- Options of a run requesting 2 pages with captions disabled. -/
def optsTwoPages : StoryInputOptions :=
  { story := "a story"
    style := "Anime/Manga"
    era := "Futuristic/Sci-Fi"
    aspectRatio := .SQUARE
    includeCaptions := false
    numPages := 2
    imageModel := IMAGEN_3
    textModel := "gemini-2.5-flash"
    captionPlacement := .IN_UI }

/-- A well-formed response whose scene list has a single entry carrying
the explicit `scene_number` 7. -/
def respOneSceneNumbered7 : Json :=
  .obj [("characterCanon", .obj []),
        ("scenes", .arr [.obj [("scene_number", .num 7)]])]

/-- A parse oracle returning `respOneSceneNumbered7` for any text. -/
def parseConst7 : List Char → Except String Json := fun _ => .ok respOneSceneNumbered7

/-- A response text (content irrelevant, the parse oracle is constant). -/
def resultPlain : TextApiResult := ⟨none, some ['x']⟩

/-- Two prompt records carrying the same scene number. -/
def promptsDupNumber : List AppPanel :=
  [⟨1, none, [], none⟩, ⟨1, none, [], none⟩]

/-- Image outcomes: panel 0 succeeds, panel 1 fails. -/
def outcomeOkThenErr : Nat → Except String String :=
  fun i => if i = 0 then .ok "data:image/jpeg;base64,u" else .error "boom"

/-- Invariant: the store's slots record exactly the outcomes of the
first `i` processed panels. -/
def SlotsSpec (outcome : Nat → Except String String) (i : Nat) (cur : List AppPanel) : Prop :=
  ∀ k, slotAt cur k =
    if k < i ∧ k < cur.length then some (renderOutcome (outcome k)) else none

/-- Invariant: a store position carries the scene number of the `j`-th
still-unprocessed prompt exactly when it is position `i + j`. -/
def MatchSpec (i : Nat) (cur rest : List AppPanel) : Prop :=
  ∀ j k (q p : AppPanel), rest[j]? = some q → cur[k]? = some p →
    (p.scene_number = q.scene_number ↔ k = i + j)


/-- The items one caption-less, dialogue-less panel contributes to its
page. -/
def panelPageItems (isLandscape : Bool) (imgLoad : String → Option (ℚ × ℚ)) (p : AppPanel) :
    List PdfItem :=
  PdfItem.textItem (panelLabel p.scene_number) marginMM (marginMM + 5) ::
  (match p.imageUrl with
   | some u =>
     if u = "error" then [PdfItem.textItem errGenerationFailedMsg marginMM (marginMM + 20)]
     else
       match imgLoad u with
       | some (w, h) =>
         [PdfItem.imageItem u ((a4Width isLandscape - (scaleDims isLandscape w h).1) / 2)
           (marginMM + 10) (scaleDims isLandscape w h).1 (scaleDims isLandscape w h).2]
       | none => [PdfItem.textItem errLoadingImageMsg marginMM (marginMM + 20)]
   | none => [PdfItem.textItem imgNotAvailableMsg marginMM (marginMM + 20)])


/-! # Theorems -/

/-! ## Helper lemmas -/

/-- A non-truthy (or absent) value falls through `||` to the default. -/
theorem jsOr_of_not_truthy (a : Option Json) (d : Json) (h : jsTruthyOpt a = false) :
    jsOr a d = d := by
  cases a with
  | none => rfl
  | some v =>
    simp only [jsTruthyOpt] at h
    simp [jsOr, h]

/-- Length of the panel map. -/
theorem sceneMapGo_length (canon : Json) (inc : Bool) (pl : CaptionPlacement)
    (idx : Nat) (scenes : List Json) :
    (sceneMapGo canon inc pl idx scenes).length = scenes.length := by
  induction scenes generalizing idx with
  | nil => rfl
  | cons s rest ih => simp [sceneMapGo, ih]

/-- Scene numbers of the panel map when no entry carries a truthy
explicit number. -/
theorem sceneMapGo_numbers (canon : Json) (inc : Bool) (pl : CaptionPlacement)
    (idx : Nat) (scenes : List Json)
    (h : ∀ s ∈ scenes, jsTruthyOpt (jsLookup s "scene_number") = false) :
    (sceneMapGo canon inc pl idx scenes).map ComicPanelData.scene_number =
      (List.range' (idx + 1) scenes.length).map (fun k => Json.num (Int.ofNat k)) := by
  induction scenes generalizing idx with
  | nil => rfl
  | cons s rest ih =>
    have hs : jsTruthyOpt (jsLookup s "scene_number") = false := h s (by simp)
    have hrest : ∀ x ∈ rest, jsTruthyOpt (jsLookup x "scene_number") = false :=
      fun x hx => h x (by simp [hx])
    simp only [sceneMapGo, List.map_cons, List.length_cons, List.range'_succ]
    refine List.cons_eq_cons.mpr ⟨?_, ?_⟩
    · show (processScene canon inc pl idx s).scene_number = Json.num (Int.ofNat (idx + 1))
      simp [processScene, jsOr_of_not_truthy _ _ hs]
    · exact ih (idx + 1) hrest

/-- Suppressed caption and dialogue fields of the panel map. -/
theorem sceneMapGo_suppressed (canon : Json) (inc : Bool) (pl : CaptionPlacement)
    (hmode : inc = false ∨ pl = CaptionPlacement.IN_IMAGE)
    (idx : Nat) (scenes : List Json) :
    ∀ p ∈ sceneMapGo canon inc pl idx scenes, p.caption = Json.null ∧ p.dialogues = [] := by
  induction scenes generalizing idx with
  | nil => intro p hp; simp [sceneMapGo] at hp
  | cons s rest ih =>
    intro p hp
    simp only [sceneMapGo, List.mem_cons] at hp
    rcases hp with h | h
    · subst h
      rcases hmode with h | h <;> subst h <;> simp [processScene]
    · exact ih (idx + 1) p h

/-- A successful `sceneCore` result is a panel map of some response
canon and scene list. -/
theorem sceneCore_ok_shape (inc : Bool) (pl : CaptionPlacement) (tm : String)
    (result : TextApiResult) (parse : List Char → Except String Json)
    (panels : List ComicPanelData)
    (h : sceneCore inc pl tm result parse = .ok panels) :
    ∃ canon scenes, panels = processScenes canon inc pl scenes := by
  unfold sceneCore at h
  split at h
  · simp at h
  · split at h
    · simp at h
    · split at h
      · simp at h
      · split at h
        · simp at h
        · rename_i j hj
          unfold validateAndBuild at h
          split at h
          · simp at h
          · split at h
            · simp at h
            · split at h
              · rename_i scenes canon hs hc
                exact ⟨canon, scenes, by simpa using h.symm⟩
              · simp at h

/-- A successful `generateScenePromptsRun` result is a panel map of some
response canon and scene list. -/
theorem generateScenePromptsRun_ok_shape (apiKey : String) (options : StoryInputOptions)
    (result : TextApiResult) (parse : List Char → Except String Json)
    (panels : List ComicPanelData) (effects : List ApiEffect)
    (h : generateScenePromptsRun apiKey options result parse = (.ok panels, effects)) :
    ∃ canon scenes,
      panels = processScenes canon options.includeCaptions options.captionPlacement scenes := by
  unfold generateScenePromptsRun at h
  split at h
  · simp at h
  · split at h
    · rename_i p0 hcore
      simp only [Prod.mk.injEq] at h
      obtain ⟨h1, -⟩ := h
      cases h1
      exact sceneCore_ok_shape _ _ _ _ _ _ hcore
    · simp at h

/-! ## C1 -/

/-- C1 (counterexample): a successful `generateScenePrompts` call need
not return `numPages` panels numbered `1..n`.  With `numPages = 2` and a
well-formed response whose scene list has one entry carrying
`scene_number: 7`, the call succeeds with a single panel numbered 7. -/
theorem sceneCount_counterexample :
    generateScenePromptsRun "k" optsTwoPages resultPlain parseConst7 =
      (.ok [⟨.num 7, .str "No prompt generated for this scene.", .null, [], .obj [], none⟩],
        [.clientConstructed, .textGenerationCall]) ∧
    optsTwoPages.numPages = 2 ∧
    ¬ (([(⟨.num 7, .str "No prompt generated for this scene.", .null, [], .obj [], none⟩ :
          ComicPanelData)].length = optsTwoPages.numPages) ∧
       [(⟨.num 7, .str "No prompt generated for this scene.", .null, [], .obj [], none⟩ :
          ComicPanelData)].map ComicPanelData.scene_number =
         (List.range' 1 optsTwoPages.numPages).map (fun k => Json.num (Int.ofNat k))) := by
  refine ⟨rfl, rfl, ?_⟩
  intro hcl
  have hlen := hcl.1
  simp [optsTwoPages] at hlen

/-- C1 (amended): the panel map returns one record per scene entry of
the response (not necessarily `numPages` records), each record's
`scene_number` taken from the entry when truthy; when no entry carries a
truthy `scene_number`, the assigned numbers are exactly `1..n` dense in
order for `n` the response's scene count. -/
theorem processScenes_count_and_numbering (canon : Json) (inc : Bool)
    (pl : CaptionPlacement) (scenes : List Json) :
    (processScenes canon inc pl scenes).length = scenes.length ∧
    ((∀ s ∈ scenes, jsTruthyOpt (jsLookup s "scene_number") = false) →
      (processScenes canon inc pl scenes).map ComicPanelData.scene_number =
        (List.range' 1 scenes.length).map (fun k => Json.num (Int.ofNat k))) := by
  refine ⟨sceneMapGo_length canon inc pl 0 scenes, ?_⟩
  intro h
  exact sceneMapGo_numbers canon inc pl 0 scenes h

/-- Witness for the amended C1 theorem at a two-scene response without
explicit numbers. -/
theorem processScenes_count_and_numbering_witness :
    (processScenes (.obj []) false .IN_UI [.obj [], .obj []]).length = 2 ∧
    (processScenes (.obj []) false .IN_UI [.obj [], .obj []]).map ComicPanelData.scene_number =
      (List.range' 1 2).map (fun k => Json.num (Int.ofNat k)) := by
  have h := processScenes_count_and_numbering (.obj []) false .IN_UI [.obj [], .obj []]
  exact ⟨h.1, h.2 (by intro s hs; fin_cases hs <;> rfl)⟩

/-! ## C2 -/

/-- C2: whenever caption inclusion is off or the caption placement is
the embed-in-image mode, every panel returned by a successful
`generateScenePrompts` call has a `null` caption and an empty dialogue
list, for every response the endpoint may return. -/
theorem captionsSuppressed (apiKey : String) (options : StoryInputOptions)
    (result : TextApiResult) (parse : List Char → Except String Json)
    (panels : List ComicPanelData) (effects : List ApiEffect)
    (hrun : generateScenePromptsRun apiKey options result parse = (.ok panels, effects))
    (hmode : options.includeCaptions = false ∨
      options.captionPlacement = CaptionPlacement.IN_IMAGE) :
    ∀ p ∈ panels, p.caption = Json.null ∧ p.dialogues = [] := by
  obtain ⟨canon, scenes, rfl⟩ :=
    generateScenePromptsRun_ok_shape apiKey options result parse panels effects hrun
  exact sceneMapGo_suppressed canon options.includeCaptions options.captionPlacement hmode 0 scenes

/-- Witness for C2 at a concrete captions-disabled run: the single panel
of the run has a null caption and no dialogues. -/
theorem captionsSuppressed_witness :
    (⟨.num 7, .str "No prompt generated for this scene.", .null, [], .obj [], none⟩ :
      ComicPanelData).caption = Json.null ∧
    (⟨.num 7, .str "No prompt generated for this scene.", .null, [], .obj [], none⟩ :
      ComicPanelData).dialogues = [] :=
  captionsSuppressed "k" optsTwoPages resultPlain parseConst7
    [⟨.num 7, .str "No prompt generated for this scene.", .null, [], .obj [], none⟩]
    [.clientConstructed, .textGenerationCall] rfl (Or.inl rfl)
    ⟨.num 7, .str "No prompt generated for this scene.", .null, [], .obj [], none⟩
    (List.mem_singleton.mpr rfl)

/-! ## C9 -/

/-- C9 (counterexample): the Gemini-flash request shape carries no
aspect-ratio parameter at all, so not every issued request carries a
target aspect ratio from the set. -/
theorem imageRequestAspect_counterexample :
    ¬ ∃ ar, requestAspect
        (buildImageRequest GEMINI_2_FLASH_IMG "prompt" AspectRatio.PORTRAIT) = some ar := by
  intro ⟨ar, har⟩
  rw [show buildImageRequest GEMINI_2_FLASH_IMG "prompt" AspectRatio.PORTRAIT =
      .flashGenerateContent GEMINI_2_FLASH_IMG "prompt" ["TEXT", "IMAGE"] FIXED_IMAGE_SEED
    from if_pos rfl] at har
  exact Option.noConfusion har

/-- C9 (amended): every request carries the fixed seed 42; the
`generateImages` shape carries the aspect ratio selected from
`{1:1, 9:16, 16:9}` by the run's setting, while the `generateContent`
(Gemini-flash) shape carries no aspect-ratio parameter. -/
theorem imageRequestSeedAndAspect (augmentedPrompt : String)
    (inputAspectRatio : AspectRatio) (imageModelName : String) :
    requestSeed (buildImageRequest imageModelName augmentedPrompt inputAspectRatio) = 42 ∧
    (imageModelName = GEMINI_2_FLASH_IMG →
      requestAspect (buildImageRequest imageModelName augmentedPrompt inputAspectRatio) = none) ∧
    (imageModelName ≠ GEMINI_2_FLASH_IMG →
      requestAspect (buildImageRequest imageModelName augmentedPrompt inputAspectRatio) =
        some (apiAspectRatioValue inputAspectRatio) ∧
      apiAspectRatioValue inputAspectRatio ∈ (["1:1", "9:16", "16:9"] : List String)) := by
  unfold buildImageRequest
  by_cases hm : imageModelName = GEMINI_2_FLASH_IMG
  · simp [hm, requestSeed, requestAspect, FIXED_IMAGE_SEED]
  · simp only [if_neg hm]
    refine ⟨rfl, fun h => absurd h hm, fun _ => ⟨rfl, ?_⟩⟩
    cases inputAspectRatio <;> simp [apiAspectRatioValue]

/-- Witness for the amended C9 theorem: the Imagen request at the
square setting carries seed 42 and aspect ratio `1:1`. -/
theorem imageRequestSeedAndAspect_witness :
    requestSeed (buildImageRequest IMAGEN_3 "p" AspectRatio.SQUARE) = 42 ∧
    requestAspect (buildImageRequest IMAGEN_3 "p" AspectRatio.SQUARE) = some "1:1" := by
  have h := imageRequestSeedAndAspect "p" AspectRatio.SQUARE IMAGEN_3
  exact ⟨h.1, (h.2.2 (by decide)).1⟩

/-! ## C10 -/

/-- C10: with an empty API key both service functions return the
key-required error immediately, with no client construction and no API
call issued, for every environment. -/
theorem emptyApiKeyRejected :
    (∀ (options : StoryInputOptions) (result : TextApiResult)
        (parse : List Char → Except String Json),
      generateScenePromptsRun "" options result parse = (.error keyRequiredSceneMsg, [])) ∧
    (∀ (imageModelName : String) (outcomes : Nat → Except String String) (jitter : Nat → ℚ),
      generateImageForPromptRun "" imageModelName outcomes jitter =
        (.error keyRequiredImageMsg, [])) := by
  exact ⟨fun _ _ _ => by simp [generateScenePromptsRun],
         fun _ _ _ => by simp [generateImageForPromptRun]⟩

/-! ## Retry-loop step lemmas -/

/-- A successful attempt returns at once. -/
theorem retryGo_ok (imageModelName : String) (outcomes : Nat → Except String String)
    (jitter : Nat → ℚ) (r fuel : Nat) (url : String) (hout : outcomes r = .ok url) :
    retryGo imageModelName outcomes jitter r (fuel + 1) = ⟨.ok url, r + 1, []⟩ := by
  unfold retryGo
  rw [hout]

/-- A transiently-classified failure below the retry cap sleeps the
backoff delay and continues with the counter incremented. -/
theorem retryGo_transient_step (imageModelName : String)
    (outcomes : Nat → Except String String) (jitter : Nat → ℚ) (r fuel : Nat) (msg : String)
    (h : classifiedTransient msg = true) (hout : outcomes r = .error msg)
    (hr : r < maxRetries) :
    retryGo imageModelName outcomes jitter r (fuel + 1) =
      ⟨(retryGo imageModelName outcomes jitter (r + 1) fuel).result,
       (retryGo imageModelName outcomes jitter (r + 1) fuel).attempts,
       (baseDelayMs * 2 ^ r + jitter (r + 1)) ::
         (retryGo imageModelName outcomes jitter (r + 1) fuel).delays⟩ := by
  simp only [classifiedTransient, Bool.and_eq_true, Bool.not_eq_true'] at h
  conv_lhs => unfold retryGo
  rw [hout]
  simp [h.1, h.2, hr]

/-- A transiently-classified failure at the retry cap terminates with an
error at that attempt. -/
theorem retryGo_exhausted (imageModelName : String) (outcomes : Nat → Except String String)
    (jitter : Nat → ℚ) (fuel : Nat) (msg : String)
    (h : classifiedTransient msg = true) (hout : outcomes maxRetries = .error msg) :
    ∃ e, retryGo imageModelName outcomes jitter maxRetries (fuel + 1) =
      ⟨.error e, maxRetries + 1, []⟩ := by
  simp only [classifiedTransient, Bool.and_eq_true, Bool.not_eq_true'] at h
  by_cases hs : isSafetyErr msg = true
  · refine ⟨msg, ?_⟩
    unfold retryGo
    rw [hout]
    simp [h.1, hs]
  · refine ⟨imageFatalWrapMsg imageModelName (maxRetries + 1) msg, ?_⟩
    unfold retryGo
    rw [hout]
    simp [h.1, hs]

/-! ## C3 -/

/-- C3: with the two-retry budget, a run whose every attempt fails with
a transiently-classified error terminates with a fatal error after
exactly `maxRetries + 1 = 3` attempts, sleeping
`2000 * 2 ^ (k - 1) + jitter k` ms before the `k`-th retry with the
jitter below one second; and a run of transient failures followed by a
success within the budget returns that success after exactly the
expected number of attempts. -/
theorem imageRetryPolicy (imageModelName : String) (m : Nat → String) (img : String)
    (jit : Nat → ℚ) (hjit : ∀ k, 0 ≤ jit k ∧ jit k < 1000) :
    ((∀ r, r ≤ maxRetries → classifiedTransient (m r) = true) →
      (∃ e, imageRetryRun imageModelName (fun r => .error (m r)) jit =
        ⟨.error e, maxRetries + 1, [baseDelayMs * 2 ^ 0 + jit 1, baseDelayMs * 2 ^ 1 + jit 2]⟩) ∧
      jit 1 < 1000 ∧ jit 2 < 1000) ∧
    (∀ j, j ≤ maxRetries → (∀ r, r < j → classifiedTransient (m r) = true) →
      imageRetryRun imageModelName (fun r => if r < j then .error (m r) else .ok img) jit =
        ⟨.ok img, j + 1, (List.range j).map (fun i => baseDelayMs * 2 ^ i + jit (i + 1))⟩) := by
  constructor
  · intro hall
    refine ⟨?_, (hjit 1).2, (hjit 2).2⟩
    obtain ⟨e, he⟩ := retryGo_exhausted imageModelName (fun r => Except.error (m r)) jit 0 (m 2)
      (hall 2 (by decide)) rfl
    have h0 : retryGo imageModelName (fun r => Except.error (m r)) jit 0 (maxRetries + 1) =
        ⟨(retryGo imageModelName (fun r => Except.error (m r)) jit 1 maxRetries).result,
         (retryGo imageModelName (fun r => Except.error (m r)) jit 1 maxRetries).attempts,
         (baseDelayMs * 2 ^ 0 + jit 1) ::
           (retryGo imageModelName (fun r => Except.error (m r)) jit 1 maxRetries).delays⟩ :=
      retryGo_transient_step imageModelName (fun r => Except.error (m r)) jit 0 maxRetries (m 0)
        (hall 0 (by decide)) rfl (by decide)
    have h1 : retryGo imageModelName (fun r => Except.error (m r)) jit 1 maxRetries =
        ⟨(retryGo imageModelName (fun r => Except.error (m r)) jit maxRetries (0 + 1)).result,
         (retryGo imageModelName (fun r => Except.error (m r)) jit maxRetries (0 + 1)).attempts,
         (baseDelayMs * 2 ^ 1 + jit 2) ::
           (retryGo imageModelName (fun r => Except.error (m r)) jit maxRetries (0 + 1)).delays⟩ :=
      retryGo_transient_step imageModelName (fun r => Except.error (m r)) jit 1 1 (m 1)
        (hall 1 (by decide)) rfl (by decide)
    refine ⟨e, ?_⟩
    rw [imageRetryRun, h0, h1, he]
  · intro j hj hpre
    have hj2 : j ≤ 2 := hj
    interval_cases j
    · have hok : retryGo imageModelName
          (fun r => if r < 0 then Except.error (m r) else Except.ok img) jit 0 (maxRetries + 1) =
          ⟨.ok img, 0 + 1, []⟩ :=
        retryGo_ok imageModelName _ jit 0 maxRetries img (by norm_num)
      rw [imageRetryRun, hok]
      rfl
    · have h0 : retryGo imageModelName
          (fun r => if r < 1 then Except.error (m r) else Except.ok img) jit 0 (maxRetries + 1) =
          ⟨(retryGo imageModelName
              (fun r => if r < 1 then Except.error (m r) else Except.ok img) jit 1 maxRetries).result,
           (retryGo imageModelName
              (fun r => if r < 1 then Except.error (m r) else Except.ok img) jit 1 maxRetries).attempts,
           (baseDelayMs * 2 ^ 0 + jit 1) ::
             (retryGo imageModelName
                (fun r => if r < 1 then Except.error (m r) else Except.ok img) jit 1 maxRetries).delays⟩ :=
        retryGo_transient_step imageModelName _ jit 0 maxRetries (m 0)
          (hpre 0 (by decide)) (by norm_num) (by decide)
      have hok : retryGo imageModelName
          (fun r => if r < 1 then Except.error (m r) else Except.ok img) jit 1 maxRetries =
          ⟨.ok img, 1 + 1, []⟩ :=
        retryGo_ok imageModelName _ jit 1 1 img (by norm_num)
      rw [imageRetryRun, h0, hok]
      simp [List.range_succ]
    · have h0 : retryGo imageModelName
          (fun r => if r < 2 then Except.error (m r) else Except.ok img) jit 0 (maxRetries + 1) =
          ⟨(retryGo imageModelName
              (fun r => if r < 2 then Except.error (m r) else Except.ok img) jit 1 maxRetries).result,
           (retryGo imageModelName
              (fun r => if r < 2 then Except.error (m r) else Except.ok img) jit 1 maxRetries).attempts,
           (baseDelayMs * 2 ^ 0 + jit 1) ::
             (retryGo imageModelName
                (fun r => if r < 2 then Except.error (m r) else Except.ok img) jit 1 maxRetries).delays⟩ :=
        retryGo_transient_step imageModelName _ jit 0 maxRetries (m 0)
          (hpre 0 (by decide)) (by norm_num) (by decide)
      have h1 : retryGo imageModelName
          (fun r => if r < 2 then Except.error (m r) else Except.ok img) jit 1 maxRetries =
          ⟨(retryGo imageModelName
              (fun r => if r < 2 then Except.error (m r) else Except.ok img) jit 2 (0 + 1)).result,
           (retryGo imageModelName
              (fun r => if r < 2 then Except.error (m r) else Except.ok img) jit 2 (0 + 1)).attempts,
           (baseDelayMs * 2 ^ 1 + jit 2) ::
             (retryGo imageModelName
                (fun r => if r < 2 then Except.error (m r) else Except.ok img) jit 2 (0 + 1)).delays⟩ :=
        retryGo_transient_step imageModelName _ jit 1 1 (m 1)
          (hpre 1 (by decide)) (by norm_num) (by decide)
      have hok : retryGo imageModelName
          (fun r => if r < 2 then Except.error (m r) else Except.ok img) jit 2 (0 + 1) =
          ⟨.ok img, 2 + 1, []⟩ :=
        retryGo_ok imageModelName _ jit 2 0 img (by norm_num)
      rw [imageRetryRun, h0, h1, hok]
      simp [List.range_succ]

/-- Witness for C3 at concrete transient messages, zero jitter, and a
success on the third attempt. -/
theorem imageRetryPolicy_witness :
    (∃ e, imageRetryRun IMAGEN_3 (fun _ => .error "429") (fun _ => 0) =
        ⟨.error e, maxRetries + 1, [baseDelayMs * 2 ^ 0 + 0, baseDelayMs * 2 ^ 1 + 0]⟩) ∧
    imageRetryRun IMAGEN_3
        (fun r => if r < 2 then .error "429" else .ok "data:image/jpeg;base64,u") (fun _ => 0) =
      ⟨.ok "data:image/jpeg;base64,u", 2 + 1,
        (List.range 2).map (fun i => baseDelayMs * 2 ^ i + 0)⟩ := by
  have tt : classifiedTransient "429" = true := by decide
  have h := imageRetryPolicy IMAGEN_3 (fun _ => "429") "data:image/jpeg;base64,u" (fun _ => 0)
    (fun k => by norm_num)
  exact ⟨(h.1 (fun r _ => tt)).1, h.2 2 (by decide) (fun r _ => tt)⟩

/-! ## C4 -/

/-- The safety-block message is classified by the catch block as a
safety error and by none of the earlier classifiers, for every finish
reason and rating the response can carry. -/
theorem safetyMessage_classification (reason : String)
    (hreason : reason = "SAFETY" ∨ reason = "IMAGE_SAFETY") (found : Option SafetyRating) :
    isAuthErr (mkSafetyMessage reason found) = false ∧
    isRateLimitErr (mkSafetyMessage reason found) = false ∧
    isInternalServerErr (mkSafetyMessage reason found) = false ∧
    isSafetyErr (mkSafetyMessage reason found) = true := by
  rcases hreason with rfl | rfl <;>
    rcases found with - | ⟨cat, prob, bl⟩ <;>
      first
        | decide
        | (cases cat <;> cases prob <;>
            (dsimp only [mkSafetyMessage, HarmCategory.str, HarmProbability.str]; decide))

/-- C4: an image attempt blocked on content-policy grounds yields the
safety message (carrying the policy category whenever a blocked rating
is available), and the retry loop propagates that error at once — no
retry attempt is made and no delay is slept — from any attempt it
occurs at. -/
theorem safetyBlockImmediate (imageModelName : String) (c : Candidate)
    (rest : List Candidate) (reason : String)
    (hreason : reason = "SAFETY" ∨ reason = "IMAGE_SAFETY")
    (hfr : c.finishReason = some reason)
    (outcomes : Nat → Except String String) (jitter : Nat → ℚ) (r fuel : Nat)
    (hout : outcomes r = flashTryBody imageModelName ⟨c :: rest⟩) :
    flashTryBody imageModelName ⟨c :: rest⟩ =
      .error (mkSafetyMessage reason (findBlockedRating c)) ∧
    retryGo imageModelName outcomes jitter r (fuel + 1) =
      ⟨.error (mkSafetyMessage reason (findBlockedRating c)), r + 1, []⟩ ∧
    (∀ rt, findBlockedRating c = some rt →
      containsSub ("Category " ++ rt.category.str)
        (mkSafetyMessage reason (findBlockedRating c)) = true) := by
  have hbody : flashTryBody imageModelName ⟨c :: rest⟩ =
      .error (mkSafetyMessage reason (findBlockedRating c)) := by
    rcases hreason with hr2 | hr2 <;>
      (subst hr2; unfold flashTryBody; simp [hfr])
  have hclass := safetyMessage_classification reason hreason (findBlockedRating c)
  refine ⟨hbody, ?_, ?_⟩
  · conv_lhs => unfold retryGo
    rw [hout, hbody]
    simp [hclass.1, hclass.2.1, hclass.2.2.1, hclass.2.2.2]
  · intro rt hrt
    rw [hrt]
    rcases hreason with rfl | rfl <;>
      rcases rt with ⟨cat, prob, bl⟩ <;>
        cases cat <;> cases prob <;>
          (dsimp only [mkSafetyMessage, HarmCategory.str, HarmProbability.str]; decide)

/-- Witness for C4: a concrete blocked candidate with a blocked
hate-speech rating at the first attempt. -/
theorem safetyBlockImmediate_witness :
    flashTryBody GEMINI_2_FLASH_IMG
        ⟨[⟨some "SAFETY", some [⟨.hateSpeech, .high, some true⟩], []⟩]⟩ =
      .error (mkSafetyMessage "SAFETY"
        (findBlockedRating ⟨some "SAFETY", some [⟨.hateSpeech, .high, some true⟩], []⟩)) ∧
    retryGo GEMINI_2_FLASH_IMG
        (fun _ => flashTryBody GEMINI_2_FLASH_IMG
          ⟨[⟨some "SAFETY", some [⟨.hateSpeech, .high, some true⟩], []⟩]⟩)
        (fun _ => 0) 0 (maxRetries + 1) =
      ⟨.error (mkSafetyMessage "SAFETY"
          (findBlockedRating ⟨some "SAFETY", some [⟨.hateSpeech, .high, some true⟩], []⟩)),
        0 + 1, []⟩ ∧
    containsSub ("Category " ++ HarmCategory.str .hateSpeech)
      (mkSafetyMessage "SAFETY"
        (findBlockedRating ⟨some "SAFETY", some [⟨.hateSpeech, .high, some true⟩], []⟩)) = true := by
  have h := safetyBlockImmediate GEMINI_2_FLASH_IMG
    ⟨some "SAFETY", some [⟨.hateSpeech, .high, some true⟩], []⟩ [] "SAFETY"
    (Or.inl rfl) rfl
    (fun _ => flashTryBody GEMINI_2_FLASH_IMG
      ⟨[⟨some "SAFETY", some [⟨.hateSpeech, .high, some true⟩], []⟩]⟩)
    (fun _ => 0) 0 maxRetries rfl
  exact ⟨h.1, h.2.1, h.2.2 ⟨.hateSpeech, .high, some true⟩ (by decide)⟩

/-! ## Panel-slot lemmas for the run loop -/

/-- The update step preserves the store length. -/
theorem panelStep_length (cur : List AppPanel) (sn : Int) (out : Except String String) :
    (panelStep cur sn out).length = cur.length := by
  cases out <;> simp [panelStep, setPanelUrl]

/-- Pointwise description of the update step. -/
theorem panelStep_getElem? (cur : List AppPanel) (sn : Int) (out : Except String String)
    (k : Nat) :
    (panelStep cur sn out)[k]? = (cur[k]?).map
      (fun p => if p.scene_number = sn then { p with imageUrl := some (renderOutcome out) }
                else p) := by
  cases out <;> simp [panelStep, setPanelUrl, renderOutcome, List.getElem?_map]

/-- The update step preserves every scene number. -/
theorem panelStep_scene_number (cur : List AppPanel) (sn : Int) (out : Except String String)
    (k : Nat) (p : AppPanel) (hp : (panelStep cur sn out)[k]? = some p) :
    ∃ q : AppPanel, cur[k]? = some q ∧ q.scene_number = p.scene_number := by
  rw [panelStep_getElem?] at hp
  cases hq : cur[k]? with
  | none =>
    rw [hq] at hp
    exact absurd hp (by simp)
  | some q =>
    rw [hq] at hp
    refine ⟨q, rfl, ?_⟩
    simp only [Option.map_some'] at hp
    by_cases h : q.scene_number = sn
    · simp only [if_pos h] at hp
      rw [← Option.some.inj hp]
    · simp only [if_neg h] at hp
      rw [← Option.some.inj hp]

/-- Slot description of the update step. -/
theorem slotAt_panelStep (cur : List AppPanel) (sn : Int) (out : Except String String)
    (k : Nat) :
    slotAt (panelStep cur sn out) k =
      match cur[k]? with
      | some p => if p.scene_number = sn then some (renderOutcome out) else p.imageUrl
      | none => none := by
  rw [slotAt, panelStep_getElem?]
  cases cur[k]? with
  | none => rfl
  | some p => by_cases h : p.scene_number = sn <;> simp [h]

/-- One loop iteration preserves both invariants and moves every slot by
an admissible transition. -/
theorem panelStep_invariants (outcome : Nat → Except String String) (i : Nat)
    (cur : List AppPanel) (p0 : AppPanel) (rest2 : List AppPanel)
    (hslots : SlotsSpec outcome i cur) (hmatch : MatchSpec i cur (p0 :: rest2)) :
    SlotsSpec outcome (i + 1) (panelStep cur p0.scene_number (outcome i)) ∧
    MatchSpec (i + 1) (panelStep cur p0.scene_number (outcome i)) rest2 ∧
    (∀ k, slotStepOk (slotAt cur k) (slotAt (panelStep cur p0.scene_number (outcome i)) k)) := by
  have hmatch0 : ∀ k (p : AppPanel), cur[k]? = some p →
      (p.scene_number = p0.scene_number ↔ k = i) := by
    intro k p hp
    have := hmatch 0 k p0 p (by simp) hp
    simpa using this
  refine ⟨?_, ?_, ?_⟩
  · intro k
    rw [slotAt_panelStep, panelStep_length]
    cases hc : cur[k]? with
    | none =>
      have hk : cur.length ≤ k := by
        by_contra hlt
        push_neg at hlt
        rw [List.getElem?_eq_getElem hlt] at hc
        exact absurd hc (by simp)
      dsimp only
      rw [if_neg (by omega)]
    | some p =>
      have hklen : k < cur.length := by
        by_contra hge
        push_neg at hge
        rw [List.getElem?_eq_none hge] at hc
        exact absurd hc (by simp)
      dsimp only
      by_cases hki : k = i
      · rw [if_pos ((hmatch0 k p hc).mpr hki), if_pos (by omega), hki]
      · rw [if_neg (fun hsn => hki ((hmatch0 k p hc).mp hsn))]
        have hsl := hslots k
        simp only [slotAt, hc] at hsl
        rw [hsl]
        by_cases hlt : k < i
        · rw [if_pos ⟨hlt, hklen⟩, if_pos ⟨by omega, hklen⟩]
        · rw [if_neg (by omega), if_neg (by omega)]
  · intro j k q p hq hp
    obtain ⟨p2, hp2, hsn⟩ := panelStep_scene_number cur p0.scene_number (outcome i) k p hp
    have := hmatch (j + 1) k q p2 (by simpa using hq) hp2
    rw [hsn] at this
    rw [this]
    omega
  · intro k
    rw [slotAt_panelStep]
    cases hc : cur[k]? with
    | none =>
      left
      simp only [slotAt, hc]
    | some p =>
      dsimp only
      by_cases hki : k = i
      · rw [if_pos ((hmatch0 k p hc).mpr hki)]
        have hsl := hslots k
        simp only [slotAt, hc] at hsl
        rw [if_neg (by omega)] at hsl
        right
        refine ⟨?_, by simp⟩
        simp only [slotAt, hc]
        exact hsl
      · rw [if_neg (fun hsn => hki ((hmatch0 k p hc).mp hsn))]
        left
        simp only [slotAt, hc]

/-- `slotHistoryOk` extends along one admissible step. -/
theorem slotHistoryOk_cons₂ {a b : Option String} {t : List (Option String)}
    (h1 : slotStepOk a b) (h2 : slotHistoryOk (b :: t)) :
    slotHistoryOk (a :: b :: t) := by
  intro pr hpr
  rw [show (a :: b :: t).tail = b :: t from rfl, List.zip_cons_cons] at hpr
  rcases List.mem_cons.mp hpr with h | h
  · rw [h]
    exact h1
  · exact h2 pr h

/-- Every slot history produced by the loop is admissible, under the
two invariants. -/
theorem imageLoopGo_history (outcome : Nat → Except String String) :
    ∀ (rest : List AppPanel) (i : Nat) (cur : List AppPanel),
      SlotsSpec outcome i cur → MatchSpec i cur rest →
      ∀ k, slotHistoryOk ((cur :: imageLoopGo outcome i cur rest).map (fun st => slotAt st k)) := by
  intro rest
  induction rest with
  | nil =>
    intro i cur _ _ k pr hpr
    simp [imageLoopGo] at hpr
  | cons p0 rest2 ih =>
    intro i cur hslots hmatch k
    obtain ⟨hs2, hm2, hstep⟩ := panelStep_invariants outcome i cur p0 rest2 hslots hmatch
    have hrec := ih (i + 1) (panelStep cur p0.scene_number (outcome i)) hs2 hm2 k
    show slotHistoryOk (slotAt cur k :: slotAt (panelStep cur p0.scene_number (outcome i)) k ::
      (imageLoopGo outcome (i + 1) (panelStep cur p0.scene_number (outcome i)) rest2).map
        (fun st => slotAt st k))
    exact slotHistoryOk_cons₂ (hstep k) hrec

/-- The loop preserves the store length. -/
theorem imageLoopFinalGo_length (outcome : Nat → Except String String) :
    ∀ (rest : List AppPanel) (i : Nat) (cur : List AppPanel),
      (imageLoopFinalGo outcome i cur rest).length = cur.length := by
  intro rest
  induction rest with
  | nil => intro i cur; rfl
  | cons p0 rest2 ih =>
    intro i cur
    rw [imageLoopFinalGo, ih, panelStep_length]

/-- The final store records one outcome per processed panel, under the
two invariants. -/
theorem imageLoopFinalGo_slots (outcome : Nat → Except String String) :
    ∀ (rest : List AppPanel) (i : Nat) (cur : List AppPanel),
      SlotsSpec outcome i cur → MatchSpec i cur rest →
      SlotsSpec outcome (i + rest.length) (imageLoopFinalGo outcome i cur rest) := by
  intro rest
  induction rest with
  | nil =>
    intro i cur hs _
    simpa [imageLoopFinalGo] using hs
  | cons p0 rest2 ih =>
    intro i cur hs hm
    obtain ⟨hs2, hm2, -⟩ := panelStep_invariants outcome i cur p0 rest2 hs hm
    have hrec := ih (i + 1) (panelStep cur p0.scene_number (outcome i)) hs2 hm2
    rw [imageLoopFinalGo]
    rw [show i + (p0 :: rest2).length = (i + 1) + rest2.length by simp; omega]
    exact hrec

/-! ## C6 -/

/-- C6 (counterexample): when two panel records share a scene number
(reachable, since the parser keeps response-supplied numbers), the
matching-by-scene-number update writes a slot twice, moving it from an
image to the error marker. -/
theorem panelSlot_counterexample :
    slotSeq promptsDupNumber outcomeOkThenErr 0 =
      [none, some "data:image/jpeg;base64,u", some "error"] ∧
    ¬ slotHistoryOk (slotSeq promptsDupNumber outcomeOkThenErr 0) := by
  have hseq : slotSeq promptsDupNumber outcomeOkThenErr 0 =
      [none, some "data:image/jpeg;base64,u", some "error"] := rfl
  refine ⟨hseq, ?_⟩
  rw [hseq]
  intro h
  have := h (some "data:image/jpeg;base64,u", some "error") (by simp)
  rcases this with h1 | h1
  · exact absurd h1 (by simp)
  · exact absurd h1.1 (by simp)

/-- C6 (amended): provided the prompt records' scene numbers are
pairwise distinct, every panel's image slot changes at most once during
a run, from absent to a present value and never back; and the final
store holds, for every panel, the data URL of its success or the error
marker of its caught failure — failed panels do not stop later ones from
being processed. -/
theorem panelSlotLifecycle (prompts : List AppPanel) (outcome : Nat → Except String String)
    (hnodup : (prompts.map AppPanel.scene_number).Nodup) :
    (∀ k, slotHistoryOk (slotSeq prompts outcome k)) ∧
    (∀ k, k < prompts.length →
      slotAt (comicRunFinal prompts outcome) k = some (renderOutcome (outcome k))) := by
  have hslots : SlotsSpec outcome 0 (prompts.map (fun p => { p with imageUrl := none })) := by
    intro k
    simp only [slotAt, List.getElem?_map]
    cases prompts[k]? <;> simp
  have hmatch : MatchSpec 0 (prompts.map (fun p => { p with imageUrl := none })) prompts := by
    intro j k q p hq hp
    rw [List.getElem?_map] at hp
    cases hp0 : prompts[k]? with
    | none =>
      rw [hp0] at hp
      exact absurd hp (by simp)
    | some p0 =>
      rw [hp0] at hp
      simp only [Option.map_some'] at hp
      have hpp : p.scene_number = p0.scene_number := by
        rw [← Option.some.inj (show (some _ : Option AppPanel) = some p from hp)]
      have hklen : k < prompts.length := by
        by_contra hge
        push_neg at hge
        rw [List.getElem?_eq_none hge] at hp0
        exact absurd hp0 (by simp)
      constructor
      · intro hsn
        have h1 : (prompts.map AppPanel.scene_number)[k]? = some p0.scene_number := by
          rw [List.getElem?_map, hp0]
          rfl
        have h2 : (prompts.map AppPanel.scene_number)[j]? = some q.scene_number := by
          rw [List.getElem?_map, hq]
          rfl
        have hk2 : k < (prompts.map AppPanel.scene_number).length := by
          simpa using hklen
        have hinj : (prompts.map AppPanel.scene_number)[k]? =
            (prompts.map AppPanel.scene_number)[j]? := by
          rw [h1, h2, ← hpp, hsn]
        have := List.getElem?_inj hk2 hnodup hinj
        omega
      · intro hkj
        have hkj2 : k = j := by omega
        subst hkj2
        rw [hp0] at hq
        rw [hpp, Option.some.inj hq]
  refine ⟨?_, ?_⟩
  · intro k
    exact imageLoopGo_history outcome prompts 0 _ hslots hmatch k
  · intro k hk
    have hfin := imageLoopFinalGo_slots outcome prompts 0 _ hslots hmatch k
    rw [comicRunFinal]
    rw [hfin, if_pos ?side]
    case side =>
      refine ⟨by omega, ?_⟩
      rw [imageLoopFinalGo_length]
      simpa using hk

/-- Witness for the amended C6 theorem at a two-panel run with distinct
scene numbers whose second image generation fails. -/
theorem panelSlotLifecycle_witness :
    slotHistoryOk (slotSeq [⟨1, none, [], none⟩, ⟨2, none, [], none⟩] outcomeOkThenErr 0) ∧
    slotAt (comicRunFinal [⟨1, none, [], none⟩, ⟨2, none, [], none⟩] outcomeOkThenErr) 0 =
      some (renderOutcome (outcomeOkThenErr 0)) ∧
    slotAt (comicRunFinal [⟨1, none, [], none⟩, ⟨2, none, [], none⟩] outcomeOkThenErr) 1 =
      some (renderOutcome (outcomeOkThenErr 1)) := by
  have h := panelSlotLifecycle [⟨1, none, [], none⟩, ⟨2, none, [], none⟩] outcomeOkThenErr
    (by decide)
  exact ⟨h.1 0, h.2 0 (by decide), h.2 1 (by decide)⟩

/-! ## Export lemmas -/

/-- The drawn output of one panel depends on the image-decode
environment only at that panel's own URL. -/
theorem renderPanel_congr (isLandscape : Bool) (wrap : String → Nat)
    (load1 load2 : String → Option (ℚ × ℚ)) (b : PdfBuild) (p : AppPanel)
    (h : ∀ u, p.imageUrl = some u → load1 u = load2 u) :
    renderPanel isLandscape wrap load1 b p = renderPanel isLandscape wrap load2 b p := by
  unfold renderPanel
  cases hu : p.imageUrl with
  | none => rfl
  | some u =>
    dsimp only
    by_cases he : u = "error"
    · simp [he]
    · rw [h u hu]

/-- The loop over the panels depends on the image-decode environment
only at the panels' own URLs. -/
theorem renderPanelsGo_congr (isLandscape : Bool) (wrap : String → Nat)
    (load1 load2 : String → Option (ℚ × ℚ)) :
    ∀ (panels : List AppPanel),
      (∀ p ∈ panels, ∀ u, p.imageUrl = some u → load1 u = load2 u) →
      ∀ b, renderPanelsGo isLandscape wrap load1 b panels =
        renderPanelsGo isLandscape wrap load2 b panels := by
  intro panels
  induction panels with
  | nil => intro _ b; rfl
  | cons p rest ih =>
    intro h b
    show renderPanelsGo isLandscape wrap load1
        (renderPanel isLandscape wrap load1 (pdfAddPage b) p) rest =
      renderPanelsGo isLandscape wrap load2
        (renderPanel isLandscape wrap load2 (pdfAddPage b) p) rest
    rw [renderPanel_congr isLandscape wrap load1 load2 (pdfAddPage b) p
      (fun u hu => h p (by simp) u hu)]
    exact ih (fun q hq u hu => h q (by simp [hq]) u hu) _

/-! ## C8 -/

/-- C8: the exported document is a function of the panel list, the
orientation setting, the text-wrapping widths and the decode results of
the panels' own image URLs: two exports of the same unmutated list (even
under environments that differ elsewhere) produce the same page count
and the same per-page text content. -/
theorem exportDeterministic (isLandscape : Bool) (wrap : String → Nat)
    (load1 load2 : String → Option (ℚ × ℚ)) (comicPanels : List AppPanel)
    (h : ∀ p ∈ comicPanels, ∀ u, p.imageUrl = some u → load1 u = load2 u) :
    (buildComicPdf isLandscape wrap load1 comicPanels).length =
      (buildComicPdf isLandscape wrap load2 comicPanels).length ∧
    docTextContents (buildComicPdf isLandscape wrap load1 comicPanels) =
      docTextContents (buildComicPdf isLandscape wrap load2 comicPanels) := by
  have heq : buildComicPdf isLandscape wrap load1 comicPanels =
      buildComicPdf isLandscape wrap load2 comicPanels := by
    cases comicPanels with
    | nil => rfl
    | cons p rest =>
      unfold buildComicPdf
      dsimp only
      rw [renderPanel_congr isLandscape wrap load1 load2 ⟨[], []⟩ p
        (fun u hu => h p (by simp) u hu),
        renderPanelsGo_congr isLandscape wrap load1 load2 rest
        (fun q hq u hu => h q (by simp [hq]) u hu)]
  exact ⟨by rw [heq], by rw [heq]⟩

/-- Witness for C8: one image panel, two decode environments that agree
on its URL and disagree elsewhere. -/
theorem exportDeterministic_witness :
    (buildComicPdf false (fun _ => 1)
        (fun u => if u = "u" then some (4, 3) else some (1, 1))
        [⟨1, none, [], some "u"⟩]).length =
      (buildComicPdf false (fun _ => 1)
        (fun u => if u = "u" then some (4, 3) else some (7, 9))
        [⟨1, none, [], some "u"⟩]).length ∧
    docTextContents (buildComicPdf false (fun _ => 1)
        (fun u => if u = "u" then some (4, 3) else some (1, 1))
        [⟨1, none, [], some "u"⟩]) =
      docTextContents (buildComicPdf false (fun _ => 1)
        (fun u => if u = "u" then some (4, 3) else some (7, 9))
        [⟨1, none, [], some "u"⟩]) := by
  refine exportDeterministic false (fun _ => 1) _ _ [⟨1, none, [], some "u"⟩] ?_
  intro p hp u hu
  rw [List.mem_singleton] at hp
  subst hp
  cases Option.some.inj hu
  rfl

/-- A panel without caption and dialogues extends the current page by
exactly its own items. -/
theorem renderPanel_simple (isLandscape : Bool) (wrap : String → Nat)
    (imgLoad : String → Option (ℚ × ℚ)) (b : PdfBuild) (p : AppPanel)
    (hc : p.caption = none) (hd : p.dialogues = []) :
    renderPanel isLandscape wrap imgLoad b p =
      ⟨b.donePages, b.curPage ++ panelPageItems isLandscape imgLoad p⟩ := by
  unfold renderPanel panelPageItems
  rw [hc, hd]
  cases hu : p.imageUrl with
  | none => simp [pdfAddItem]
  | some u =>
    dsimp only
    by_cases he : u = "error"
    · simp [he, pdfAddItem]
    · rw [if_neg he, if_neg he]
      cases hl : imgLoad u with
      | none => simp [pdfAddItem]
      | some wh =>
        cases wh with
        | mk w h => simp [pdfAddItem, List.foldl_nil]

/-- The pages of the loop over caption-less, dialogue-less panels. -/
theorem renderPanelsGo_simple (isLandscape : Bool) (wrap : String → Nat)
    (imgLoad : String → Option (ℚ × ℚ)) :
    ∀ (panels : List AppPanel) (b : PdfBuild),
      (∀ p ∈ panels, p.caption = none ∧ p.dialogues = []) →
      pdfPages (renderPanelsGo isLandscape wrap imgLoad b panels) =
        b.donePages ++ [b.curPage] ++ panels.map (panelPageItems isLandscape imgLoad) := by
  intro panels
  induction panels with
  | nil => intro b _; simp [renderPanelsGo, pdfPages]
  | cons p rest ih =>
    intro b h
    show pdfPages (renderPanelsGo isLandscape wrap imgLoad
        (renderPanel isLandscape wrap imgLoad (pdfAddPage b) p) rest) = _
    rw [renderPanel_simple isLandscape wrap imgLoad (pdfAddPage b) p
        (h p (by simp)).1 (h p (by simp)).2,
      ih _ (fun q hq => h q (by simp [hq]))]
    simp [pdfAddPage]

/-- The whole export over a non-empty caption-less, dialogue-less panel
list: one page per panel, each carrying that panel's items. -/
theorem buildComicPdf_simple (isLandscape : Bool) (wrap : String → Nat)
    (imgLoad : String → Option (ℚ × ℚ)) (p : AppPanel) (rest : List AppPanel)
    (h : ∀ q ∈ p :: rest, q.caption = none ∧ q.dialogues = []) :
    buildComicPdf isLandscape wrap imgLoad (p :: rest) =
      (p :: rest).map (panelPageItems isLandscape imgLoad) := by
  unfold buildComicPdf
  dsimp only
  rw [renderPanel_simple isLandscape wrap imgLoad ⟨[], []⟩ p
      (h p (by simp)).1 (h p (by simp)).2,
    renderPanelsGo_simple isLandscape wrap imgLoad rest _ (fun q hq => h q (by simp [hq]))]
  simp

/-- Scaling keeps the image inside its content box and preserves the
width-to-height ratio. -/
theorem scaleDims_fits (isLandscape : Bool) (w h : ℚ) (hw : 0 < w) (hh : 0 < h) :
    (scaleDims isLandscape w h).1 ≤ maxImgWidth isLandscape ∧
    (scaleDims isLandscape w h).2 ≤ maxImgHeightArea isLandscape ∧
    (scaleDims isLandscape w h).1 * h = (scaleDims isLandscape w h).2 * w := by
  have har : 0 < w / h := div_pos hw hh
  unfold scaleDims
  dsimp only
  split_ifs with hc
  · refine ⟨?_, le_refl _, ?_⟩
    · exact le_of_lt ((lt_div_iff₀ har).mp hc)
    · field_simp
  · push_neg at hc
    refine ⟨le_refl _, hc, ?_⟩
    field_simp

/-! ## C7 -/

/-- C7: exporting three caption-less panels of which one carries the
error marker and the others valid decodable images produces exactly
three pages; the error panel's page shows the textual placeholder and
no image; each image page carries exactly one picture, fitting the
content box in both dimensions and preserving the original
width-to-height ratio. -/
theorem exportThreePanels (isLandscape : Bool) (wrap : String → Nat)
    (load : String → Option (ℚ × ℚ)) (panels : List AppPanel)
    (hlen : panels.length = 3)
    (hsimple : ∀ p ∈ panels, p.caption = none ∧ p.dialogues = [])
    (hstatus : ∀ p ∈ panels, p.imageUrl = some "error" ∨
      (∃ u w h, p.imageUrl = some u ∧ u ≠ "error" ∧ load u = some (w, h) ∧ 0 < w ∧ 0 < h))
    (herr : panels.countP (fun p => p.imageUrl == some "error") = 1) :
    (buildComicPdf isLandscape wrap load panels).length = 3 ∧
    (∀ k (hk : k < panels.length), (panels.get ⟨k, hk⟩).imageUrl = some "error" →
      errGenerationFailedMsg ∈
        pageTextContents ((buildComicPdf isLandscape wrap load panels).getD k []) ∧
      pageImageDims ((buildComicPdf isLandscape wrap load panels).getD k []) = []) ∧
    (∀ k (hk : k < panels.length), ∀ u w h,
      (panels.get ⟨k, hk⟩).imageUrl = some u → u ≠ "error" → load u = some (w, h) →
      0 < w → 0 < h →
      ∃ W H, pageImageDims ((buildComicPdf isLandscape wrap load panels).getD k []) = [(W, H)] ∧
        W ≤ maxImgWidth isLandscape ∧ H ≤ maxImgHeightArea isLandscape ∧ W * h = H * w) := by
  obtain ⟨p, rest, rfl⟩ : ∃ p rest, panels = p :: rest := by
    cases panels with
    | nil => simp at hlen
    | cons p rest => exact ⟨p, rest, rfl⟩
  have hdoc := buildComicPdf_simple isLandscape wrap load p rest hsimple
  have hpage : ∀ k (hk : k < (p :: rest).length),
      (buildComicPdf isLandscape wrap load (p :: rest)).getD k [] =
        panelPageItems isLandscape load ((p :: rest).get ⟨k, hk⟩) := by
    intro k hk
    rw [hdoc, List.getD_eq_getElem _ _ (by simpa using hk), List.getElem_map]
    rfl
  refine ⟨by rw [hdoc]; simpa using hlen, ?_, ?_⟩
  · intro k hk hku
    rw [hpage k hk]
    unfold panelPageItems
    rw [hku]
    simp [pageTextContents, pageImageDims]
  · intro k hk u w h hku hne hload hw hh
    rw [hpage k hk]
    unfold panelPageItems
    rw [hku]
    dsimp only
    rw [if_neg hne, hload]
    dsimp only
    obtain ⟨h1, h2, h3⟩ := scaleDims_fits isLandscape w h hw hh
    exact ⟨(scaleDims isLandscape w h).1, (scaleDims isLandscape w h).2,
      by simp [pageImageDims, pageTextContents], h1, h2, h3⟩

/-- Witness for C7 at a concrete three-panel list: a 4:3 image, the
error marker, and a 3:4 image. -/
theorem exportThreePanels_witness :
    (buildComicPdf false (fun _ => 1)
        (fun u => if u = "a" then some (4, 3) else some (3, 4))
        [⟨1, none, [], some "a"⟩, ⟨2, none, [], some "error"⟩,
         ⟨3, none, [], some "c"⟩]).length = 3 ∧
    (errGenerationFailedMsg ∈ pageTextContents
        ((buildComicPdf false (fun _ => 1)
          (fun u => if u = "a" then some (4, 3) else some (3, 4))
          [⟨1, none, [], some "a"⟩, ⟨2, none, [], some "error"⟩,
           ⟨3, none, [], some "c"⟩]).getD 1 []) ∧
      pageImageDims ((buildComicPdf false (fun _ => 1)
          (fun u => if u = "a" then some (4, 3) else some (3, 4))
          [⟨1, none, [], some "a"⟩, ⟨2, none, [], some "error"⟩,
           ⟨3, none, [], some "c"⟩]).getD 1 []) = []) ∧
    (∃ W H, pageImageDims ((buildComicPdf false (fun _ => 1)
          (fun u => if u = "a" then some (4, 3) else some (3, 4))
          [⟨1, none, [], some "a"⟩, ⟨2, none, [], some "error"⟩,
           ⟨3, none, [], some "c"⟩]).getD 0 []) = [(W, H)] ∧
      W ≤ maxImgWidth false ∧ H ≤ maxImgHeightArea false ∧ W * 3 = H * 4) := by
  have h := exportThreePanels false (fun _ => 1)
    (fun u => if u = "a" then some (4, 3) else some (3, 4))
    [⟨1, none, [], some "a"⟩, ⟨2, none, [], some "error"⟩, ⟨3, none, [], some "c"⟩]
    rfl
    (by intro q hq; fin_cases hq <;> exact ⟨rfl, rfl⟩)
    (by
      intro q hq
      fin_cases hq
      · exact Or.inr ⟨"a", 4, 3, rfl, by decide, rfl, by norm_num, by norm_num⟩
      · exact Or.inl rfl
      · exact Or.inr ⟨"c", 3, 4, rfl, by decide, rfl, by norm_num, by norm_num⟩)
    (by decide)
  exact ⟨h.1, h.2.1 1 (by decide) rfl,
    h.2.2 0 (by decide) "a" 4 3 rfl (by decide) rfl (by norm_num) (by norm_num)⟩

/-! ## Whitespace and fence lemmas -/

/-- Dropping over a fully-matching left part continues on the right. -/
theorem dropWhile_append_all (p : Char → Bool) (l₁ l₂ : List Char)
    (h : ∀ c ∈ l₁, p c = true) :
    (l₁ ++ l₂).dropWhile p = l₂.dropWhile p := by
  induction l₁ with
  | nil => rfl
  | cons c l ih =>
    rw [List.cons_append, List.dropWhile_cons_of_pos (h c (by simp))]
    exact ih (fun c hc => h c (by simp [hc]))

/-- Dropping stops inside a left part that has a failing character. -/
theorem dropWhile_append_stops (p : Char → Bool) (l₁ l₂ : List Char)
    (h : l₁.dropWhile p ≠ []) :
    (l₁ ++ l₂).dropWhile p = l₁.dropWhile p ++ l₂ := by
  induction l₁ with
  | nil => exact absurd rfl h
  | cons c l ih =>
    by_cases hc : p c = true
    · rw [List.cons_append, List.dropWhile_cons_of_pos hc]
      rw [List.dropWhile_cons_of_pos hc] at h ⊢
      exact ih h
    · rw [List.cons_append, List.dropWhile_cons_of_neg hc,
        List.dropWhile_cons_of_neg hc, List.cons_append]

/-- A trailing whitespace character disappears under the right trim. -/
theorem trimRight_append_space (l : List Char) (c : Char) (hc : isSpaceChar c = true) :
    trimRight (l ++ [c]) = trimRight l := by
  unfold trimRight
  rw [List.reverse_append, List.reverse_singleton, List.singleton_append,
    List.dropWhile_cons_of_pos hc]

/-- The head surviving a `dropWhile` fails the predicate. -/
theorem head?_dropWhile_neg (p : Char → Bool) (l : List Char) (x : Char)
    (h : (l.dropWhile p).head? = some x) : p x = false := by
  induction l with
  | nil => exact absurd h (by simp)
  | cons c l ih =>
    by_cases hc : p c = true
    · rw [List.dropWhile_cons_of_pos hc] at h
      exact ih h
    · rw [List.dropWhile_cons_of_neg hc] at h
      rw [← Option.some.inj (show some c = some x from h)]
      exact Bool.not_eq_true _ ▸ (Bool.eq_false_iff.mpr hc)

/-- `dropWhile` is idempotent. -/
theorem dropWhile_idem (p : Char → Bool) (l : List Char) :
    (l.dropWhile p).dropWhile p = l.dropWhile p := by
  cases hd : l.dropWhile p with
  | nil => rfl
  | cons x t =>
    have hx : p x = false := head?_dropWhile_neg p l x (by rw [hd]; rfl)
    rw [List.dropWhile_cons_of_neg (by simp [hx])]

/-- The right trim is a prefix. -/
theorem trimRight_prefix (l : List Char) : trimRight l <+: l := by
  have hs : l.reverse.dropWhile isSpaceChar <:+ l.reverse := List.dropWhile_suffix _
  have := List.reverse_prefix.mpr hs
  simpa [trimRight] using this

/-- A non-empty right trim keeps the head. -/
theorem trimRight_head? (l : List Char) (h : trimRight l ≠ []) :
    (trimRight l).head? = l.head? := by
  obtain ⟨t, ht⟩ := trimRight_prefix l
  cases hr : trimRight l with
  | nil => exact absurd hr h
  | cons x s =>
    rw [← ht, hr, List.cons_append]
    rfl

/-- The two-sided trim is idempotent. -/
theorem jsTrim_idem (l : List Char) : jsTrim (jsTrim l) = jsTrim l := by
  unfold jsTrim
  by_cases h : trimRight (trimLeft l) = []
  · rw [h]
    rfl
  · have hleft : trimLeft (trimRight (trimLeft l)) = trimRight (trimLeft l) := by
      cases hr : trimRight (trimLeft l) with
      | nil => rfl
      | cons x t =>
        have hx : isSpaceChar x = false := by
          have hh := trimRight_head? (trimLeft l) (by rw [hr]; simp)
          rw [hr] at hh
          exact head?_dropWhile_neg isSpaceChar l x hh.symm
        exact List.dropWhile_cons_of_neg (by simp [hx])
    rw [hleft]
    unfold trimRight
    rw [List.reverse_reverse, dropWhile_idem]

/-- A trailing non-whitespace character survives the right trim. -/
theorem trimRight_append_nonspace (l : List Char) (c : Char) (hc : isSpaceChar c = false) :
    trimRight (l ++ [c]) = l ++ [c] := by
  unfold trimRight
  rw [List.reverse_append, List.reverse_singleton, List.singleton_append,
    List.dropWhile_cons_of_neg (by simp [hc]), List.reverse_cons, List.reverse_reverse]

/-- A fenced wrapping is already trimmed. -/
theorem jsTrim_fenceWrap (lang body : List Char) :
    jsTrim (fenceWrap lang body) = fenceWrap lang body := by
  have h1 : trimLeft (fenceWrap lang body) = fenceWrap lang body := by
    show List.dropWhile isSpaceChar (fenceWrap lang body) = fenceWrap lang body
    rw [show fenceWrap lang body =
      backtick :: ([backtick, backtick] ++ lang ++ ['\n'] ++ body ++ ['\n'] ++ tick3) from by
        simp [fenceWrap, tick3]]
    rw [List.dropWhile_cons_of_neg (by decide)]
  have h2 : trimRight (fenceWrap lang body) = fenceWrap lang body := by
    rw [show fenceWrap lang body =
      (tick3 ++ lang ++ ['\n'] ++ body ++ ['\n'] ++ [backtick, backtick]) ++ [backtick] from by
        simp [fenceWrap, tick3]]
    exact trimRight_append_nonspace _ backtick (by decide)
  rw [jsTrim, h1, h2]

/-- The fence regex matches a fenced wrapping and captures the trimmed
body. -/
theorem fenceContent_fenceWrap (lang body : List Char)
    (hlang : ∀ c ∈ lang, isWordChar c = true)
    (hbody : trimLeft body ≠ []) :
    fenceContent (fenceWrap lang body) = some (jsTrim body) := by
  have hlen : (fenceWrap lang body).length = lang.length + body.length + 8 := by
    simp [fenceWrap, tick3]
    omega
  have htake : (fenceWrap lang body).take 3 = tick3 := by
    rw [show fenceWrap lang body =
        tick3 ++ (lang ++ ['\n'] ++ body ++ ['\n'] ++ tick3) from by simp [fenceWrap]]
    exact List.take_left' rfl
  have hdrop : (fenceWrap lang body).drop ((fenceWrap lang body).length - 3) = tick3 := by
    rw [show fenceWrap lang body =
        (tick3 ++ lang ++ ['\n'] ++ body ++ ['\n']) ++ tick3 from by simp [fenceWrap]]
    refine List.drop_left' ?_
    simp [tick3]
    omega
  have hmid : ((fenceWrap lang body).drop 3).take ((fenceWrap lang body).length - 6) =
      lang ++ ['\n'] ++ body ++ ['\n'] := by
    have hd3 : (fenceWrap lang body).drop 3 = lang ++ ['\n'] ++ body ++ ['\n'] ++ tick3 := by
      rw [show fenceWrap lang body =
          tick3 ++ (lang ++ ['\n'] ++ body ++ ['\n'] ++ tick3) from by simp [fenceWrap]]
      exact List.drop_left' rfl
    rw [hd3, show lang ++ ['\n'] ++ body ++ ['\n'] ++ tick3 =
        (lang ++ ['\n'] ++ body ++ ['\n']) ++ tick3 from by simp]
    refine List.take_left' ?_
    simp [hlen]
    omega
  have hword : (lang ++ (['\n'] ++ (body ++ ['\n']))).dropWhile isWordChar =
      '\n' :: (body ++ ['\n']) := by
    rw [dropWhile_append_all isWordChar lang _ hlang, List.singleton_append,
      List.dropWhile_cons_of_neg (by decide)]
  unfold fenceContent
  rw [if_pos ⟨htake, by omega, hdrop⟩, hmid]
  dsimp only
  rw [show lang ++ ['\n'] ++ body ++ ['\n'] = lang ++ (['\n'] ++ (body ++ ['\n'])) from by simp]
  rw [hword, List.dropWhile_cons_of_pos (by decide),
    dropWhile_append_stops isSpaceChar body ['\n'] hbody,
    trimRight_append_space _ '\n' (by decide)]
  rfl

/-! ## C5 -/

/-- C5: the response pipeline strips an optional surrounding code fence
before parsing (a fenced body and a bare body reach `JSON.parse` as the
same trimmed text), raises the malformed-structure error when the parsed
value lacks the `scenes` array, raises the canon error when the
`characterCanon` field is absent or not object-typed, and otherwise
proceeds to build the panels. -/
theorem sceneResponseContract (textModel : String) (inc : Bool) (pl : CaptionPlacement) :
    (∀ lang body : List Char, (∀ c ∈ lang, isWordChar c = true) → jsTrim body ≠ [] →
      parseInput (fenceWrap lang body) = jsTrim body) ∧
    (∀ body : List Char, ¬ tick3 <+: jsTrim body → parseInput body = jsTrim body) ∧
    (∀ parsedData : Json, scenesShapeOk parsedData = false →
      validateAndBuild inc pl textModel parsedData =
        .error (.thrown (missingStructMsg textModel))) ∧
    (∀ parsedData : Json, scenesShapeOk parsedData = true → canonShapeOk parsedData = false →
      validateAndBuild inc pl textModel parsedData =
        .error (.thrown (missingCanonMsg textModel))) ∧
    (∀ (parsedData : Json) (scenes : List Json) (characterCanon : Json),
      jsLookup parsedData "scenes" = some (.arr scenes) →
      jsLookup parsedData "characterCanon" = some characterCanon →
      scenesShapeOk parsedData = true → canonShapeOk parsedData = true →
      validateAndBuild inc pl textModel parsedData =
        .ok (processScenes characterCanon inc pl scenes)) := by
  refine ⟨?_, ?_, ?_, ?_, ?_⟩
  · intro lang body hlang hbody
    have hbody2 : trimLeft body ≠ [] := by
      intro h0
      apply hbody
      rw [jsTrim, h0]
      rfl
    rw [parseInput, jsTrim_fenceWrap]
    unfold applyFenceStrip
    rw [fenceContent_fenceWrap lang body hlang hbody2]
    dsimp only
    rw [if_neg hbody, jsTrim_idem]
  · intro body hn
    rw [parseInput]
    unfold applyFenceStrip
    have hnone : fenceContent (jsTrim body) = none := by
      unfold fenceContent
      rw [if_neg (fun hcond =>
        hn ⟨(jsTrim body).drop 3, by rw [← hcond.1, List.take_append_drop]⟩)]
    rw [hnone]
  · intro parsedData hs
    unfold validateAndBuild
    rw [if_pos hs]
  · intro parsedData hs hc
    unfold validateAndBuild
    rw [if_neg (by simp [hs]), if_pos hc]
  · intro parsedData scenes characterCanon hscenes hcanon hs hc
    unfold validateAndBuild
    rw [if_neg (by simp [hs]), if_neg (by simp [hc]), hscenes, hcanon]

/-- Witness for C5: a concrete fenced body, a scalar response value, and
the well-formed response of one scene. -/
theorem sceneResponseContract_witness :
    parseInput (fenceWrap ['j', 's', 'o', 'n'] ['x']) = jsTrim ['x'] ∧
    validateAndBuild false CaptionPlacement.IN_UI "m" (Json.num 0) =
      .error (.thrown (missingStructMsg "m")) ∧
    validateAndBuild false CaptionPlacement.IN_UI "m" respOneSceneNumbered7 =
      .ok (processScenes (.obj []) false CaptionPlacement.IN_UI
        [.obj [("scene_number", .num 7)]]) := by
  have h := sceneResponseContract "m" false CaptionPlacement.IN_UI
  exact ⟨h.1 ['j', 's', 'o', 'n'] ['x'] (by decide) (by decide),
    h.2.2.1 (Json.num 0) rfl,
    h.2.2.2.2 respOneSceneNumbered7 [.obj [("scene_number", .num 7)]] (.obj [])
      rfl rfl rfl rfl⟩
